import Mathlib

/-
Verification of the flask-io request/response marshalling helper.

This file is a shallow embedding of `flask_io/io.py` and `flask_io/parsers.py`
into Lean 4.  Python values that can flow through the marshalling pipeline are
modelled by the inductive type `Val`, Python dictionaries by association lists,
and Python exceptions by the `Except` monad over the inductive `PyError`.
Python truthiness (`if x:`) is modelled explicitly by `Val.truthy`,
`pyTruthyStr` and `pyTruthyOpt`.

`flask_io/errors.py` and `flask_io/encoders.py` are not part of the sources;
the error classes are modelled from the specification's description of
"simple validation/media-type error objects" together with how `io.py`
constructs them, and the default encoder/decoder registrations are modelled
as an arbitrary list of `register_encoder`/`register_decoder` calls.
-/

set_option autoImplicit false

namespace FlaskIOSpec

/-- Models the distinct error reasons of `flask_io.errors.ErrorReason` that
`io.py` uses: `required_parameter` and `invalid_parameter`.
Modelled from the spec: `errors.py` is not among the sources, only the two
reason names used by `io.py` are modelled. -/
inductive ErrorReason : Type where
  | required_parameter : ErrorReason
  | invalid_parameter : ErrorReason
deriving DecidableEq, Repr

/-- Models the Python exception objects that can be raised by the marshalling
pipeline.  `validation`, `mediaTypeSupported` and `flaskIOError` model the
distinct classes `ValidationError`, `MediaTypeSupported` and `FlaskIOError` of
`flask_io.errors` (Modelled from the spec: `errors.py` is not among the
sources; the constructor arguments are the ones `io.py` passes).
`pyException` models any other Python exception (for example the
`AttributeError` from calling `.split` on `None`). -/
inductive PyError : Type where
  | validation (reason : ErrorReason) (location : String) (message : String) : PyError
  | mediaTypeSupported (mediaTypes : List (Option String)) (message : String) : PyError
  | flaskIOError (message : String) : PyError
  | pyException (message : String) : PyError
deriving DecidableEq, Repr

/-- True exactly for the "simple validation/media-type error objects" of the
spec: `ValidationError` and `MediaTypeSupported`. -/
def PyError.isSimple : PyError → Bool
  | .validation _ _ _ => true
  | .mediaTypeSupported _ _ => true
  | .flaskIOError _ => false
  | .pyException _ => false

/-- Python `isinstance(e, ValidationError)`, as tested by the
`except` handlers in `io.py`. -/
def PyError.isValidation : PyError → Bool
  | .validation _ _ _ => true
  | _ => false

/-- The Python types that `flask_io` registers parsers for, plus `other` for
any further class used as a dictionary key. -/
inductive PyType : Type where
  | bool : PyType
  | int : PyType
  | float : PyType
  | str : PyType
  | datetime : PyType
  | other (name : String) : PyType
deriving DecidableEq, Repr

/-- Python `str(type_)`, as used in the `FlaskIOError` message of
`__parse_into_param`. -/
def PyType.pyStr : PyType → String
  | .bool => "<class 'bool'>"
  | .int => "<class 'int'>"
  | .float => "<class 'float'>"
  | .str => "<class 'str'>"
  | .datetime => "<class 'datetime.datetime'>"
  | .other n => "<class '" ++ n ++ "'>"

/-- Python values that flow through the marshalling pipeline.  `float` carries
a rational number, `datetime` an abstract timestamp. -/
inductive Val : Type where
  | none : Val
  | bool (b : Bool) : Val
  | int (n : Int) : Val
  | float (q : Rat) : Val
  | str (s : String) : Val
  | datetime (t : Nat) : Val
  | list (vs : List Val) : Val

/-- Python truthiness of a string (`if s:`). -/
def pyTruthyStr (s : String) : Bool := !s.isEmpty

/-- Python truthiness of an optional string (`None` and `''` are falsy). -/
def pyTruthyOpt : Option String → Bool
  | Option.none => false
  | Option.some s => pyTruthyStr s

/-- Python truthiness of a `Val` (`if x:`): `None`, `False`, `0`, `0.0`, the
empty string and the empty list are falsy; `datetime` objects are always
truthy. -/
def Val.truthy : Val → Bool
  | .none => false
  | .bool b => b
  | .int n => decide (n ≠ 0)
  | .float q => decide (q ≠ 0)
  | .str s => pyTruthyStr s
  | .datetime _ => true
  | .list vs => !vs.isEmpty

/-- Association-list model of a Python dictionary: in-place update of the
first binding of the key, append when the key is absent (Python dictionaries
keep insertion order and have at most one binding per key). -/
def listInsert {κ α : Type} [DecidableEq κ] : List (κ × α) → κ → α → List (κ × α)
  | [], k, v => [(k, v)]
  | p :: rest, k, v => if p.1 = k then (k, v) :: rest else p :: listInsert rest k v

/-- Dictionary lookup (`d.get(k)`): value of the first binding of `k`. -/
def listGet {κ α : Type} [DecidableEq κ] (l : List (κ × α)) (k : κ) : Option α :=
  (l.find? (fun p => decide (p.1 = k))).map (fun p => p.2)

/-- Keyword-argument dictionary of a handler call (`kwargs`). -/
def Kwargs : Type := List (String × Val)

/-- Werkzeug-style multi-dictionary (`request.args`, `request.form`,
`request.cookies`, `request.headers`): an ordered list of key/value pairs. -/
def MultiDict : Type := List (String × String)

/-- `MultiDict.get(k)`: the first value bound to `k`, `None` when absent. -/
def mdGet (md : MultiDict) (k : String) : Option String :=
  (md.find? (fun p => decide (p.1 = k))).map (fun p => p.2)

/-- `MultiDict.getlist(k)`: every value bound to `k`, in order. -/
def mdGetlist (md : MultiDict) (k : String) : List String :=
  (md.filter (fun p => decide (p.1 = k))).map (fun p => p.2)

/-- ASCII lowercasing of one character (models Python `str.lower` on the
ASCII inputs the code deals in). -/
def lowerChar (c : Char) : Char :=
  if 65 ≤ c.toNat ∧ c.toNat ≤ 90 then Char.ofNat (c.toNat + 32) else c

/-- Models Python `s.lower()`. -/
def lowerStr (s : String) : String := String.mk (s.data.map lowerChar)

/-- Whether `pat` occurs as a contiguous sublist. -/
def listContainsSub (pat : List Char) : List Char → Bool
  | [] => pat.isEmpty
  | c :: rest => if pat.isPrefixOf (c :: rest) then true else listContainsSub pat rest

/-- Python `sub in s` for strings. -/
def pyContains (s sub : String) : Bool := listContainsSub sub.data s.data

/-- Split a character list on a separator character (Python
`s.split(sep)` for a one-character separator: never the empty list). -/
def splitOnChar (sep : Char) : List Char → List (List Char)
  | [] => [[]]
  | c :: rest =>
    if c = sep then [] :: splitOnChar sep rest
    else
      match splitOnChar sep rest with
      | [] => [[c]]
      | g :: gs => (c :: g) :: gs

/-- Python `s.split(sep)` for a one-character separator. -/
def pySplit (s : String) (sep : Char) : List String :=
  (splitOnChar sep s.data).map String.mk

/-- Python `s.split(sep)[0]` for a one-character separator. -/
def pySplitHead (s : String) (sep : Char) : String := (pySplit s sep).headD ""

/-- Python `sep.join(l)`. -/
def joinWith (sep : String) : List String → String
  | [] => ""
  | [s] => s
  | s :: rest => s ++ sep ++ joinWith sep rest

/-- The characters Python `str.strip()` removes. -/
def isPySpace (c : Char) : Bool :=
  [' ', '\t', '\n', '\r', Char.ofNat 11, Char.ofNat 12].contains c

/-- Python `s.strip()`. -/
def pyStrip (s : String) : String :=
  String.mk (((s.data.dropWhile isPySpace).reverse.dropWhile isPySpace).reverse)

/-- `request.headers[k]`: case-insensitive header lookup.  `io.py` checks the
result for truthiness (`if content_type:`, `if not accept`), so a missing
header is modelled as the empty string. -/
def getHeader (h : MultiDict) (k : String) : String :=
  match h.find? (fun p => decide (lowerStr p.1 = lowerStr k)) with
  | some p => p.2
  | Option.none => ""

/-- Python `str(x)` of an optional string, where `None` prints as `"None"`. -/
def pyShowOpt : Option String → String
  | Option.none => "None"
  | Option.some s => s

/-- The incoming HTTP request, as far as `io.py` reads it: the four argument
sources, the headers and the raw body (`request.get_data()`). -/
structure Request : Type where
  args : MultiDict
  form : MultiDict
  cookies : MultiDict
  headers : MultiDict
  body : String

/-- A registered body decoder: bytes to a Python value, possibly raising. -/
def Decoder : Type := String → Except PyError Val

/-- A registered body encoder: a Python value to response bytes.  Encoder
callbacks are modelled as total functions; exceptions raised inside an
encoder callback are outside the model. -/
def Encoder : Type := Val → String

/-- A registered parser callback, as in `parsers.py`: it receives the Python
type and the raw string and returns the coerced value, possibly raising. -/
def ParserFun : Type := PyType → String → Except PyError Val

/-- Outcome of calling a user `validate` callback: either it returns a value
(only its truthiness matters downstream) or it raises an exception. -/
inductive VOutcome : Type where
  | returns (truthy : Bool) : VOutcome
  | raises (e : PyError) : VOutcome

/-- A `default=` argument of the `from_*` decorators: either a plain value or
a callable producing one. -/
inductive DefaultV : Type where
  | val (v : Val) : DefaultV
  | func (f : Unit → Val) : DefaultV

/-- Python truthiness of a `default=` argument (`if default:`); callables are
always truthy. -/
def DefaultV.truthy : DefaultV → Bool
  | .val v => v.truthy
  | .func _ => true

/-- The value a default contributes: `default()` when callable, else itself. -/
def DefaultV.eval : DefaultV → Val
  | .val v => v
  | .func f => f ()

/-- Numeric value of a character list, `None` unless it is one or more
decimal digits. -/
def natOfDigits (cs : List Char) : Option Nat :=
  if cs.isEmpty then Option.none
  else if cs.all Char.isDigit then
    some (cs.foldl (fun n c => 10 * n + (c.toNat - 48)) 0)
  else Option.none

/-- Python `int(value)` on a string: optional surrounding whitespace, optional
sign, decimal digits (digit-group underscores are not modelled). -/
def pyIntOfString (s : String) : Option Int :=
  match (pyStrip s).data with
  | '-' :: rest => (natOfDigits rest).map (fun n => -(n : Int))
  | '+' :: rest => (natOfDigits rest).map (fun n => (n : Int))
  | t => (natOfDigits t).map (fun n => (n : Int))

/-- Python `float(value)` on a string: optional sign, decimal digits with an
optional fractional part (exponent, `inf` and `nan` forms are not modelled;
no theorem below depends on float coercion). -/
def pyFloatOfString (s : String) : Option Rat :=
  let core : List Char → Option Rat := fun u =>
    match splitOnChar '.' u with
    | [a] => (natOfDigits a).map (fun n => (n : Rat))
    | [a, b] =>
      if a.isEmpty ∧ b.isEmpty then Option.none
      else if a.isEmpty then (natOfDigits b).map (fun m => (m : Rat) / ((10 : Rat) ^ b.length))
      else if b.isEmpty then (natOfDigits a).map (fun n => (n : Rat))
      else
        match natOfDigits (a ++ b) with
        | some n => some ((n : Rat) / ((10 : Rat) ^ b.length))
        | Option.none => Option.none
    | _ => Option.none
  match (pyStrip s).data with
  | '-' :: rest => (core rest).map (fun q => -q)
  | '+' :: rest => core rest
  | t => core t

/-- Models `parsers.parse_bool`: case-insensitive membership of the raw value
in `['yes', 'true', 'y', 't', '1']`. -/
def parse_bool (type_ : PyType) (value : String) : Except PyError Val :=
  Except.ok (Val.bool ((["yes", "true", "y", "t", "1"].contains (lowerStr value))))

/-- Models `parsers.parse_primitive`, which calls `type_(value)`.  The
constructors of `int`, `float` and `str` on a string are modelled; a Python
coercion failure becomes an `Except.error` (a raised `ValueError`/`TypeError`).
`parse_primitive` is only registered for `int`, `float` and `str`; the
constructor calls of other classes are modelled as raising. -/
def parse_primitive (type_ : PyType) (value : String) : Except PyError Val :=
  match type_ with
  | .int =>
    match pyIntOfString value with
    | some n => Except.ok (Val.int n)
    | Option.none => Except.error (PyError.pyException "ValueError")
  | .float =>
    match pyFloatOfString value with
    | some q => Except.ok (Val.float q)
    | Option.none => Except.error (PyError.pyException "ValueError")
  | .str => Except.ok (Val.str value)
  | .bool => Except.ok (Val.bool (pyTruthyStr value))
  | .datetime => Except.error (PyError.pyException "TypeError")
  | .other _ => Except.error (PyError.pyException "TypeError")

/-- Models `parsers.parse_datetime`, which calls the external
`dateutil.parser.parse`.  Modelled from the spec: `dateutil` is a third-party
library, represented as a parse that fails on the empty string and otherwise
yields an abstract `datetime`; no theorem below depends on its behaviour. -/
def parse_datetime (type_ : PyType) (value : String) : Except PyError Val :=
  if value.isEmpty then Except.error (PyError.pyException "ValueError")
  else Except.ok (Val.datetime value.length)

/-- The per-instance state of the `FlaskIO` class: the three registries
(`self.__decoders`, `self.__encoders`, `self.__parsers`) and the two default
media types (class attributes initially `None`). -/
structure FlaskIOState : Type where
  decoders : List (String × Decoder)
  encoders : List (String × Encoder)
  parsers : List (PyType × ParserFun)
  default_decoder : Option String
  default_encoder : Option String

/-- State right after `self.__decoders = {}` etc. in `FlaskIO.__init__`,
before any registration: empty registries, defaults `None`. -/
def FlaskIOState.empty : FlaskIOState :=
  { decoders := [], encoders := [], parsers := [],
    default_decoder := Option.none, default_encoder := Option.none }

/-- Models `FlaskIO.register_decoder`: sets the default decoder media type
when it is still falsy, then stores the function under the media type. -/
def FlaskIOState.register_decoder (io : FlaskIOState) (media_type : String) (func : Decoder) :
    FlaskIOState :=
  { io with
    default_decoder :=
      if pyTruthyOpt io.default_decoder then io.default_decoder else some media_type,
    decoders := listInsert io.decoders media_type func }

/-- Models `FlaskIO.register_encoder`: sets the default encoder media type
when it is still falsy, then stores the function under the media type. -/
def FlaskIOState.register_encoder (io : FlaskIOState) (media_type : String) (func : Encoder) :
    FlaskIOState :=
  { io with
    default_encoder :=
      if pyTruthyOpt io.default_encoder then io.default_encoder else some media_type,
    encoders := listInsert io.encoders media_type func }

/-- Models `FlaskIO.register_parser` (renamed for Lean): stores the function
under the Python type. -/
def FlaskIOState.registerParser (io : FlaskIOState) (type_ : PyType) (func : ParserFun) :
    FlaskIOState :=
  { io with parsers := listInsert io.parsers type_ func }

/-- Models `parsers.register_default_parsers`: registers `parse_bool` for
`bool`, `parse_primitive` for `int`, `float` and `str`, and `parse_datetime`
for `datetime`, in that order. -/
def register_default_parsers (io : FlaskIOState) : FlaskIOState :=
  ((((io.registerParser PyType.bool parse_bool).registerParser
      PyType.int parse_primitive).registerParser
      PyType.float parse_primitive).registerParser
      PyType.str parse_primitive).registerParser PyType.datetime parse_datetime

/-- Models `encoders.register_default_decoders`.  Modelled from the spec:
`encoders.py` is not among the sources; per the spec it configures the
media-type registries at startup, modelled as a sequence of
`register_decoder` calls given by the list `regs`. -/
def register_default_decoders (regs : List (String × Decoder)) (io : FlaskIOState) :
    FlaskIOState :=
  regs.foldl (fun s p => s.register_decoder p.1 p.2) io

/-- Models `encoders.register_default_encoders`.  Modelled from the spec:
`encoders.py` is not among the sources; per the spec it configures the
media-type registries at startup, modelled as a sequence of
`register_encoder` calls given by the list `regs`. -/
def register_default_encoders (regs : List (String × Encoder)) (io : FlaskIOState) :
    FlaskIOState :=
  regs.foldl (fun s p => s.register_encoder p.1 p.2) io

/-- Models `FlaskIO.__init__`: fresh registries, then default decoders,
default encoders and default parsers, in the source's order.  The default
decoder/encoder sets come from the missing `encoders.py` and are parameters
of the model. -/
def FlaskIOState.init (dd : List (String × Decoder)) (de : List (String × Encoder)) :
    FlaskIOState :=
  register_default_parsers
    (register_default_encoders de (register_default_decoders dd FlaskIOState.empty))

/-- The raw argument as a Python value: `None` when absent from the request,
otherwise the string the multi-dictionary returned. -/
def rawToVal : Option String → Val
  | Option.none => Val.none
  | Option.some s => Val.str s

/-- Models `if not arg_name: arg_name = param_name` at the top of
`FlaskIO.__parse_into_param` (`arg_name` defaults to `None`, and an empty
string is falsy). -/
def resolveArgName (arg_name : Option String) (param_name : String) : String :=
  match arg_name with
  | Option.none => param_name
  | Option.some a => if pyTruthyStr a then a else param_name

/-- The `ValidationError` for an invalid argument, as `FlaskIO.__parse`
raises it. -/
def invalidArgError (arg_name : String) : PyError :=
  PyError.validation ErrorReason.invalid_parameter arg_name
    ("Argument '" ++ arg_name ++ "' is invalid.")

/-- The `ValidationError` for a missing argument, as `FlaskIO.__parse`
raises it. -/
def requiredArgError (arg_name : String) : PyError :=
  PyError.validation ErrorReason.required_parameter arg_name
    ("Argument '" ++ arg_name ++ "' is missing.")

/-- First block of `FlaskIO.__parse`: inside a bare `try`, the parser runs on
the raw value only when that value is truthy (present and non-empty); any
exception becomes an invalid-argument `ValidationError`. -/
def parseRaw (parser : ParserFun) (param_type : PyType) (arg_name : String)
    (raw : Option String) : Except PyError Val :=
  match raw with
  | Option.none => Except.ok Val.none
  | Option.some s =>
    if pyTruthyStr s then
      match parser param_type s with
      | Except.ok v => Except.ok v
      | Except.error _ => Except.error (invalidArgError arg_name)
    else Except.ok (Val.str s)

/-- The value left after the default-substitution step of `FlaskIO.__parse`
(`if default: ...`): the default (called when callable) when the default
itself is truthy, otherwise the falsy value unchanged. -/
def applyDefaultVal (default : Option DefaultV) (v : Val) : Val :=
  match default with
  | Option.none => v
  | Option.some d => if d.truthy then d.eval else v

/-- Second block of `FlaskIO.__parse` (`if not arg_value:`): a falsy value is
treated as missing — raise when `required`, otherwise substitute the default
when the default itself is truthy (`if default:`), calling it when callable. -/
def applyDefaultRequired (arg_name : String) (default : Option DefaultV) (required : Bool)
    (v : Val) : Except PyError Val :=
  if v.truthy then Except.ok v
  else if required then Except.error (requiredArgError arg_name)
  else Except.ok (applyDefaultVal default v)

/-- Third block of `FlaskIO.__parse`: run the `validate` callback on
`(arg_name, value)`; a raised `ValidationError` propagates unchanged, any
other exception or a falsy return yields an invalid-argument
`ValidationError`, a truthy return accepts the value unchanged. -/
def applyValidateArg (validate : Option (String → Val → VOutcome)) (arg_name : String)
    (v : Val) : Except PyError Val :=
  match validate with
  | Option.none => Except.ok v
  | Option.some f =>
    match f arg_name v with
    | VOutcome.returns b => if b then Except.ok v else Except.error (invalidArgError arg_name)
    | VOutcome.raises e =>
      match e with
      | PyError.validation r l m => Except.error (PyError.validation r l m)
      | _ => Except.error (invalidArgError arg_name)

/-- Models the static method `FlaskIO.__parse`, as the sequence of its three
blocks: raw coercion, missing-value handling, validation. -/
def FlaskIOState.parse (parser : ParserFun) (param_type : PyType) (arg_name : String)
    (raw : Option String) (default : Option DefaultV) (required : Bool)
    (validate : Option (String → Val → VOutcome)) : Except PyError Val :=
  (parseRaw parser param_type arg_name raw).bind
    (fun v => (applyDefaultRequired arg_name default required v).bind
      (fun v2 => applyValidateArg validate arg_name v2))

/-- Models `args.getlist(arg_name) or [None]` in `FlaskIO.__parse_into_param`:
the raw values for `multiple=True`, replaced by `[None]` when the empty list
(falsy) comes back. -/
def rawValuesFor (src : MultiDict) (arg_name : String) : List (Option String) :=
  let l := mdGetlist src arg_name
  if l.isEmpty then [Option.none] else l.map (fun s => some s)

/-- The loop of `FlaskIO.__parse_into_param` for `multiple=True`: parse each
raw value in order, aborting at the first exception. -/
def parseAll (parser : ParserFun) (param_type : PyType) (arg_name : String)
    (default : Option DefaultV) (required : Bool)
    (validate : Option (String → Val → VOutcome)) :
    List (Option String) → Except PyError (List Val)
  | [] => Except.ok []
  | raw :: rest =>
    (FlaskIOState.parse parser param_type arg_name raw default required validate).bind
      (fun v => (parseAll parser param_type arg_name default required validate rest).bind
        (fun vs => Except.ok (v :: vs)))

/-- Models `FlaskIO.__parse_into_param`: resolve the argument name, look up
the parser (raising `FlaskIOError` when the type has none), parse the single
value or every value, and only then write `params[param_name]`.  The returned
pair is the dictionary state together with the raised exception, if any. -/
def FlaskIOState.parseIntoParam (io : FlaskIOState) (param_name : String)
    (param_type : PyType) (src : MultiDict) (arg_name : Option String)
    (default : Option DefaultV) (required : Bool) (multiple : Bool)
    (validate : Option (String → Val → VOutcome)) (params : Kwargs) :
    Kwargs × Option PyError :=
  match listGet io.parsers param_type with
  | Option.none =>
    (params, some (PyError.flaskIOError
      ("Parameter type '" ++ param_type.pyStr ++ "' does not have a parser.")))
  | Option.some parser =>
    if multiple then
      match parseAll parser param_type (resolveArgName arg_name param_name) default required
          validate (rawValuesFor src (resolveArgName arg_name param_name)) with
      | Except.ok vs => (listInsert params param_name (Val.list vs), Option.none)
      | Except.error e => (params, some e)
    else
      match FlaskIOState.parse parser param_type (resolveArgName arg_name param_name)
          (mdGet src (resolveArgName arg_name param_name)) default required validate with
      | Except.ok v => (listInsert params param_name v, Option.none)
      | Except.error e => (params, some e)

/-- Models `FlaskIO.__decode`: pick the media type from the `content-type`
header (falling back to the default decoder media type when the header is
falsy), look up the decoder and run it; a missing decoder raises
`MediaTypeSupported`. -/
def FlaskIOState.decode (io : FlaskIOState) (req : Request) (data : String) :
    Except PyError Val :=
  let content_type := getHeader req.headers "content-type"
  let media_type : Option String :=
    if pyTruthyStr content_type then some (pySplitHead content_type ';')
    else io.default_decoder
  match (match media_type with
         | Option.none => Option.none
         | Option.some m => listGet io.decoders m) with
  | Option.none =>
    Except.error (PyError.mediaTypeSupported [media_type]
      ("Media type not supported: " ++ pyShowOpt media_type))
  | Option.some dec => dec data

/-- The decoding block of `FlaskIO.__decode_into_param`: `data.decode()` for
`str` parameters, otherwise `__decode`, with any exception other than
`MediaTypeSupported` converted to an invalid-payload `ValidationError`. -/
def decodePayload (io : FlaskIOState) (req : Request) (param_type : PyType) :
    Except PyError Val :=
  if param_type = PyType.str then Except.ok (Val.str req.body)
  else
    match io.decode req req.body with
    | Except.ok v => Except.ok v
    | Except.error e =>
      match e with
      | PyError.mediaTypeSupported l m => Except.error (PyError.mediaTypeSupported l m)
      | _ =>
        Except.error (PyError.validation ErrorReason.invalid_parameter "payload"
          "Payload is invalid.")

/-- The validation block of `FlaskIO.__decode_into_param`: like
`applyValidateArg` but the callback receives only the value and errors are
located at `'payload'`. -/
def applyValidateBody (validate : Option (Val → VOutcome)) (v : Val) :
    Except PyError Val :=
  match validate with
  | Option.none => Except.ok v
  | Option.some f =>
    match f v with
    | VOutcome.returns b =>
      if b then Except.ok v
      else
        Except.error (PyError.validation ErrorReason.invalid_parameter "payload"
          "Payload is invalid.")
    | VOutcome.raises e =>
      match e with
      | PyError.validation r l m => Except.error (PyError.validation r l m)
      | _ =>
        Except.error (PyError.validation ErrorReason.invalid_parameter "payload"
          "Payload is invalid.")

/-- Models `FlaskIO.__decode_into_param`: an empty body with `required=True`
raises a required-payload `ValidationError` before anything else; otherwise
decode, validate, and only then write `params[param_name]`. -/
def FlaskIOState.decodeIntoParam (io : FlaskIOState) (req : Request) (param_name : String)
    (param_type : PyType) (required : Bool) (validate : Option (Val → VOutcome))
    (params : Kwargs) : Kwargs × Option PyError :=
  if ¬ pyTruthyStr req.body ∧ required then
    (params, some (PyError.validation ErrorReason.required_parameter "payload"
      "Payload is missing."))
  else
    match (decodePayload io req param_type).bind (fun v => applyValidateBody validate v) with
    | Except.ok v => (listInsert params param_name v, Option.none)
    | Except.error e => (params, some e)

/-- The loop of `FlaskIO.__encode`: the first entry whose text before the
first `';'` has a registered encoder, together with that text. -/
def findEnc (encoders : List (String × Encoder)) : List String → Option (String × Encoder)
  | [] => Option.none
  | mt :: rest =>
    let m := pySplitHead mt ';'
    match listGet encoders m with
    | Option.some enc => some (m, enc)
    | Option.none => findEnc encoders rest

/-- First statements of `FlaskIO.__encode`: the candidate media types are the
comma-separated `accept` entries, or the default encoder media type alone
when `accept` is falsy or contains `'*/*'`; when no encoder was ever
registered the default is `None` and the loop's `None.split(';')` raises an
`AttributeError`. -/
def encodeMediaTypes (io : FlaskIOState) (accept : String) :
    Except PyError (List String) :=
  if ¬ pyTruthyStr accept ∨ pyContains accept "*/*" then
    match io.default_encoder with
    | Option.none =>
      Except.error (PyError.pyException
        "AttributeError: 'NoneType' object has no attribute 'split'")
    | Option.some d => Except.ok [d]
  else Except.ok (pySplit accept ',')

/-- Models `FlaskIO.__encode`: pick the candidate media types from the
`accept` header, then encode with the first supported one; raise
`MediaTypeSupported` when none is supported. -/
def FlaskIOState.encode (io : FlaskIOState) (req : Request) (data : Val) :
    Except PyError (String × String) :=
  (encodeMediaTypes io (getHeader req.headers "accept")).bind (fun media_types =>
    match findEnc io.encoders media_types with
    | Option.some me => Except.ok (me.1, me.2 data)
    | Option.none =>
      Except.error (PyError.mediaTypeSupported (media_types.map (fun m => some m))
        ("Media types not supported: " ++ joinWith ", " media_types)))

/-- The status value a handler may return beside its data. -/
inductive PyStatus : Type where
  | str (s : String) : PyStatus
  | int (n : Int) : PyStatus

/-- The flask `Response` object, as far as `__encode_into_body` builds and
mutates it. -/
structure Response : Type where
  body : String
  mimetype : Option String
  status : Option PyStatus
  headers : List (String × String)

/-- The first element of a handler's return: plain data to encode, or an
already-built `Response`. -/
inductive RawData : Type where
  | value (v : Val) : RawData
  | resp (r : Response) : RawData

/-- A handler's return value under `render()`: the data alone or a tuple of
up to three elements (data, status, headers). -/
inductive HandlerOut : Type where
  | single (d : RawData) : HandlerOut
  | withStatus (d : RawData) (s : Option PyStatus) : HandlerOut
  | withStatusHeaders (d : RawData) (s : Option PyStatus)
      (hs : List (String × String)) : HandlerOut

/-- Models `data, status, headers = data + (None,) * (3 - len(data))`. -/
def normalizeOut : HandlerOut → RawData × Option PyStatus × List (String × String)
  | HandlerOut.single d => (d, Option.none, [])
  | HandlerOut.withStatus d s => (d, s, [])
  | HandlerOut.withStatusHeaders d s hs => (d, s, hs)

/-- The `if status is not None:` block of `__encode_into_body`. -/
def applyStatus (r : Response) : Option PyStatus → Response
  | Option.none => r
  | Option.some s => { r with status := some s }

/-- The `if headers:` block of `__encode_into_body` (`data.headers.extend`). -/
def extendHeaders (r : Response) (hs : List (String × String)) : Response :=
  if hs.isEmpty then r else { r with headers := r.headers ++ hs }

/-- Models `FlaskIO.__encode_into_body`: unpack the optional tuple, encode
plain data into a `Response` carrying the negotiated mimetype, then apply the
status and extend the headers when given. -/
def FlaskIOState.encodeIntoBody (io : FlaskIOState) (req : Request) (out : HandlerOut) :
    Except PyError Response :=
  match normalizeOut out with
  | (d, status, headers) =>
    (match d with
     | RawData.resp r => Except.ok r
     | RawData.value v =>
       (io.encode req v).bind (fun mb =>
         Except.ok { body := mb.2, mimetype := some mb.1,
                     status := Option.none, headers := [] })).bind
      (fun r => Except.ok (extendHeaders (applyStatus r status) headers))

/-- Models the wrapper produced by the `FlaskIO.render` decorator: call the
handler, then encode its return value into the response body. -/
def render (io : FlaskIOState) (req : Request)
    (func : List Val → Kwargs → HandlerOut) (args : List Val) (kwargs : Kwargs) :
    Except PyError Response :=
  io.encodeIntoBody req (func args kwargs)

/-- Models the wrapper produced by `FlaskIO.from_query`: extract the
parameter from `request.args` into `kwargs`, then call the handler; the pair
carries the final `kwargs` state and the handler's result or the raised
exception. -/
def from_query {ρ : Type} (io : FlaskIOState) (param_name : String) (param_type : PyType)
    (default : Option DefaultV) (required : Bool) (multiple : Bool)
    (validate : Option (String → Val → VOutcome)) (arg_name : Option String)
    (req : Request) (func : List Val → Kwargs → ρ) (args : List Val) (kwargs : Kwargs) :
    Kwargs × Except PyError ρ :=
  match io.parseIntoParam param_name param_type req.args arg_name default required
      multiple validate kwargs with
  | (kw, Option.none) => (kw, Except.ok (func args kw))
  | (kw, Option.some e) => (kw, Except.error e)

/-- Models the wrapper produced by `FlaskIO.from_header` (same as
`from_query` over `request.headers`). -/
def from_header {ρ : Type} (io : FlaskIOState) (param_name : String) (param_type : PyType)
    (default : Option DefaultV) (required : Bool) (multiple : Bool)
    (validate : Option (String → Val → VOutcome)) (arg_name : Option String)
    (req : Request) (func : List Val → Kwargs → ρ) (args : List Val) (kwargs : Kwargs) :
    Kwargs × Except PyError ρ :=
  match io.parseIntoParam param_name param_type req.headers arg_name default required
      multiple validate kwargs with
  | (kw, Option.none) => (kw, Except.ok (func args kw))
  | (kw, Option.some e) => (kw, Except.error e)

/-- Models the wrapper produced by `FlaskIO.from_cookie` (same as
`from_query` over `request.cookies`). -/
def from_cookie {ρ : Type} (io : FlaskIOState) (param_name : String) (param_type : PyType)
    (default : Option DefaultV) (required : Bool) (multiple : Bool)
    (validate : Option (String → Val → VOutcome)) (arg_name : Option String)
    (req : Request) (func : List Val → Kwargs → ρ) (args : List Val) (kwargs : Kwargs) :
    Kwargs × Except PyError ρ :=
  match io.parseIntoParam param_name param_type req.cookies arg_name default required
      multiple validate kwargs with
  | (kw, Option.none) => (kw, Except.ok (func args kw))
  | (kw, Option.some e) => (kw, Except.error e)

/-- Models the wrapper produced by `FlaskIO.from_form` (same as `from_query`
over `request.form`). -/
def from_form {ρ : Type} (io : FlaskIOState) (param_name : String) (param_type : PyType)
    (default : Option DefaultV) (required : Bool) (multiple : Bool)
    (validate : Option (String → Val → VOutcome)) (arg_name : Option String)
    (req : Request) (func : List Val → Kwargs → ρ) (args : List Val) (kwargs : Kwargs) :
    Kwargs × Except PyError ρ :=
  match io.parseIntoParam param_name param_type req.form arg_name default required
      multiple validate kwargs with
  | (kw, Option.none) => (kw, Except.ok (func args kw))
  | (kw, Option.some e) => (kw, Except.error e)

/-- Models the wrapper produced by `FlaskIO.from_body`: decode the request
body into `kwargs`, then call the handler. -/
def from_body {ρ : Type} (io : FlaskIOState) (param_name : String) (param_type : PyType)
    (required : Bool) (validate : Option (Val → VOutcome))
    (req : Request) (func : List Val → Kwargs → ρ) (args : List Val) (kwargs : Kwargs) :
    Kwargs × Except PyError ρ :=
  match io.decodeIntoParam req param_name param_type required validate kwargs with
  | (kw, Option.none) => (kw, Except.ok (func args kw))
  | (kw, Option.some e) => (kw, Except.error e)

end FlaskIOSpec

namespace FlaskIOSpec

/-- A concrete `FlaskIO` instance used to exercise the theorems below: a JSON
decoder and JSON/HTML encoders registered at construction. -/
def ioW : FlaskIOState :=
  FlaskIOState.init [("application/json", fun s => Except.ok (Val.str s))]
    [("application/json", fun _ => "JSON"), ("text/html", fun _ => "HTML")]

/-- A concrete request used to exercise the theorems below. -/
def reqW : Request :=
  { args := [("x", "5"), ("y", "a")], form := [], cookies := [],
    headers := [("Accept", "text/xml,text/html;q=0.9")], body := "" }

theorem listGet_nil {κ α : Type} [DecidableEq κ] (k : κ) :
    listGet ([] : List (κ × α)) k = Option.none := rfl

theorem listGet_cons {κ α : Type} [DecidableEq κ] (p : κ × α) (l : List (κ × α)) (k : κ) :
    listGet (p :: l) k = if p.1 = k then some p.2 else listGet l k := by
  by_cases h : p.1 = k
  · simp [listGet, List.find?, h]
  · simp [listGet, List.find?, h]

theorem listGet_listInsert_self {κ α : Type} [DecidableEq κ]
    (l : List (κ × α)) (k : κ) (v : α) : listGet (listInsert l k v) k = some v := by
  induction l with
  | nil => simp [listInsert, listGet_cons]
  | cons p rest ih =>
    by_cases h : p.1 = k
    · simp [listInsert, h, listGet_cons]
    · simp [listInsert, h, listGet_cons, ih]

theorem listGet_listInsert_ne {κ α : Type} [DecidableEq κ]
    (l : List (κ × α)) (k k' : κ) (v : α) (h : k' ≠ k) :
    listGet (listInsert l k v) k' = listGet l k' := by
  have hkk : ¬ (k = k') := fun hh => h hh.symm
  induction l with
  | nil => simp [listInsert, listGet_cons, hkk]
  | cons p rest ih =>
    by_cases hp : p.1 = k
    · have hp2 : ¬ (p.1 = k') := by rw [hp]; exact hkk
      simp [listInsert, hp, listGet_cons, hkk, hp2]
    · simp [listInsert, hp, listGet_cons, ih]

/-- Registering decoders does not touch the parser registry. -/
theorem register_default_decoders_parsers (regs : List (String × Decoder))
    (io : FlaskIOState) : (register_default_decoders regs io).parsers = io.parsers := by
  induction regs generalizing io with
  | nil => rfl
  | cons p rest ih =>
    show (register_default_decoders rest (io.register_decoder p.1 p.2)).parsers = io.parsers
    rw [ih]
    rfl

/-- Registering encoders does not touch the parser registry. -/
theorem register_default_encoders_parsers (regs : List (String × Encoder))
    (io : FlaskIOState) : (register_default_encoders regs io).parsers = io.parsers := by
  induction regs generalizing io with
  | nil => rfl
  | cons p rest ih =>
    show (register_default_encoders rest (io.register_encoder p.1 p.2)).parsers = io.parsers
    rw [ih]
    rfl

/-- The parser registry produced by `FlaskIO.__init__` is exactly the five
default registrations. -/
theorem init_parsers (dd : List (String × Decoder)) (de : List (String × Encoder)) :
    (FlaskIOState.init dd de).parsers = (register_default_parsers FlaskIOState.empty).parsers := by
  have h : (register_default_encoders de
      (register_default_decoders dd FlaskIOState.empty)).parsers
      = FlaskIOState.empty.parsers := by
    rw [register_default_encoders_parsers, register_default_decoders_parsers]
  show (register_default_parsers
      (register_default_encoders de (register_default_decoders dd FlaskIOState.empty))).parsers
    = (register_default_parsers FlaskIOState.empty).parsers
  simp only [register_default_parsers, FlaskIOState.registerParser]
  rw [h]

end FlaskIOSpec

namespace FlaskIOSpec

/-- A successful `__parse_into_param` writes exactly the single entry
`params[param_name]`. -/
theorem parseIntoParam_ok (io : FlaskIOState) (pn : String) (pt : PyType)
    (src : MultiDict) (an : Option String) (default : Option DefaultV)
    (required multiple : Bool) (validate : Option (String → Val → VOutcome))
    (params kw : Kwargs)
    (h : io.parseIntoParam pn pt src an default required multiple validate params
      = (kw, Option.none)) :
    ∃ v, kw = listInsert params pn v := by
  unfold FlaskIOState.parseIntoParam at h
  cases hp : listGet io.parsers pt with
  | none =>
    simp only [hp] at h
    exact absurd (congrArg Prod.snd h) (by simp)
  | some parser =>
    simp only [hp] at h
    cases multiple with
    | true =>
      simp only [if_pos] at h
      cases hq : parseAll parser pt (resolveArgName an pn) default required validate
          (rawValuesFor src (resolveArgName an pn)) with
      | ok vs =>
        simp only [hq] at h
        exact ⟨Val.list vs, (congrArg Prod.fst h).symm⟩
      | error e =>
        simp only [hq] at h
        exact absurd (congrArg Prod.snd h) (by simp)
    | false =>
      simp only [Bool.false_eq_true, if_neg] at h
      cases hq : FlaskIOState.parse parser pt (resolveArgName an pn)
          (mdGet src (resolveArgName an pn)) default required validate with
      | ok v =>
        simp only [hq] at h
        exact ⟨v, (congrArg Prod.fst h).symm⟩
      | error e =>
        simp only [hq] at h
        exact absurd (congrArg Prod.snd h) (by simp)

/-- A failing `__parse_into_param` leaves the dictionary untouched. -/
theorem parseIntoParam_err (io : FlaskIOState) (pn : String) (pt : PyType)
    (src : MultiDict) (an : Option String) (default : Option DefaultV)
    (required multiple : Bool) (validate : Option (String → Val → VOutcome))
    (params kw : Kwargs) (e : PyError)
    (h : io.parseIntoParam pn pt src an default required multiple validate params
      = (kw, some e)) :
    kw = params := by
  unfold FlaskIOState.parseIntoParam at h
  cases hp : listGet io.parsers pt with
  | none =>
    simp only [hp] at h
    exact (congrArg Prod.fst h).symm
  | some parser =>
    simp only [hp] at h
    cases multiple with
    | true =>
      simp only [if_pos] at h
      cases hq : parseAll parser pt (resolveArgName an pn) default required validate
          (rawValuesFor src (resolveArgName an pn)) with
      | ok vs =>
        simp only [hq] at h
        exact absurd (congrArg Prod.snd h) (by simp)
      | error e2 =>
        simp only [hq] at h
        exact (congrArg Prod.fst h).symm
    | false =>
      simp only [Bool.false_eq_true, if_neg] at h
      cases hq : FlaskIOState.parse parser pt (resolveArgName an pn)
          (mdGet src (resolveArgName an pn)) default required validate with
      | ok v =>
        simp only [hq] at h
        exact absurd (congrArg Prod.snd h) (by simp)
      | error e2 =>
        simp only [hq] at h
        exact (congrArg Prod.fst h).symm

end FlaskIOSpec

namespace FlaskIOSpec

/-- A successful `__decode_into_param` writes exactly the single entry
`params[param_name]`. -/
theorem decodeIntoParam_ok (io : FlaskIOState) (req : Request) (pn : String)
    (pt : PyType) (required : Bool) (validate : Option (Val → VOutcome))
    (params kw : Kwargs)
    (h : io.decodeIntoParam req pn pt required validate params = (kw, Option.none)) :
    ∃ v, kw = listInsert params pn v := by
  unfold FlaskIOState.decodeIntoParam at h
  by_cases hb : ¬ pyTruthyStr req.body ∧ required = true
  · rw [if_pos hb] at h
    exact absurd (congrArg Prod.snd h) (by simp)
  · rw [if_neg hb] at h
    cases hq : (decodePayload io req pt).bind (fun v => applyValidateBody validate v) with
    | ok v =>
      simp only [hq] at h
      exact ⟨v, (congrArg Prod.fst h).symm⟩
    | error e =>
      simp only [hq] at h
      exact absurd (congrArg Prod.snd h) (by simp)

/-- A failing `__decode_into_param` leaves the dictionary untouched. -/
theorem decodeIntoParam_err (io : FlaskIOState) (req : Request) (pn : String)
    (pt : PyType) (required : Bool) (validate : Option (Val → VOutcome))
    (params kw : Kwargs) (e : PyError)
    (h : io.decodeIntoParam req pn pt required validate params = (kw, some e)) :
    kw = params := by
  unfold FlaskIOState.decodeIntoParam at h
  by_cases hb : ¬ pyTruthyStr req.body ∧ required = true
  · rw [if_pos hb] at h
    exact (congrArg Prod.fst h).symm
  · rw [if_neg hb] at h
    cases hq : (decodePayload io req pt).bind (fun v => applyValidateBody validate v) with
    | ok v =>
      simp only [hq] at h
      exact absurd (congrArg Prod.snd h) (by simp)
    | error e2 =>
      simp only [hq] at h
      exact (congrArg Prod.fst h).symm

/-- Claim C7: after constructing a `FlaskIO` instance the parser registry
holds the default entries for `bool`, `int`, `float`, `str` and `datetime`
(the decoder and encoder registries hold whatever `register_default_decoders`
and `register_default_encoders` registered), and each later
`register_parser(type_, func)` call adds or overwrites only the entry for
`type_`, leaving every other parser entry and the other two registries
untouched. -/
theorem claim_C7 :
    (∀ (dd : List (String × Decoder)) (de : List (String × Encoder)),
      listGet (FlaskIOState.init dd de).parsers PyType.bool = some parse_bool
      ∧ listGet (FlaskIOState.init dd de).parsers PyType.int = some parse_primitive
      ∧ listGet (FlaskIOState.init dd de).parsers PyType.float = some parse_primitive
      ∧ listGet (FlaskIOState.init dd de).parsers PyType.str = some parse_primitive
      ∧ listGet (FlaskIOState.init dd de).parsers PyType.datetime = some parse_datetime)
    ∧ (∀ (io : FlaskIOState) (t : PyType) (f : ParserFun) (t' : PyType),
      (listGet (io.registerParser t f).parsers t'
        = if t' = t then some f else listGet io.parsers t')
      ∧ (io.registerParser t f).decoders = io.decoders
      ∧ (io.registerParser t f).encoders = io.encoders
      ∧ (io.registerParser t f).default_decoder = io.default_decoder
      ∧ (io.registerParser t f).default_encoder = io.default_encoder) := by
  constructor
  · intro dd de
    refine ⟨?_, ?_, ?_, ?_, ?_⟩ <;> rw [init_parsers] <;> rfl
  · intro io t f t'
    refine ⟨?_, rfl, rfl, rfl, rfl⟩
    by_cases ht : t' = t
    · rw [if_pos ht, ht]
      exact listGet_listInsert_self io.parsers t f
    · rw [if_neg ht]
      exact listGet_listInsert_ne io.parsers t t' f ht

end FlaskIOSpec

namespace FlaskIOSpec

/-- Claim C1: for every decorator produced by `from_query`, `from_header`,
`from_cookie` or `from_form` and every request, a successful wrapper run
writes exactly the one entry `kwargs[param_name]` before calling the wrapped
handler: the final dictionary is `kwargs` with `param_name` bound to some
value, the handler is called on the unchanged positional arguments and that
dictionary, and every other key's binding is unchanged. -/
theorem claim_C1 (ρ : Type) (io : FlaskIOState) (pn : String) (pt : PyType)
    (default : Option DefaultV) (required multiple : Bool)
    (validate : Option (String → Val → VOutcome)) (an : Option String)
    (req : Request) (func : List Val → Kwargs → ρ) (args : List Val)
    (kwargs kw : Kwargs) (r : ρ) :
    (from_query io pn pt default required multiple validate an req func args kwargs
        = (kw, Except.ok r) →
      ∃ v, kw = listInsert kwargs pn v ∧ r = func args kw ∧ listGet kw pn = some v
        ∧ ∀ k, k ≠ pn → listGet kw k = listGet kwargs k)
    ∧ (from_header io pn pt default required multiple validate an req func args kwargs
        = (kw, Except.ok r) →
      ∃ v, kw = listInsert kwargs pn v ∧ r = func args kw ∧ listGet kw pn = some v
        ∧ ∀ k, k ≠ pn → listGet kw k = listGet kwargs k)
    ∧ (from_cookie io pn pt default required multiple validate an req func args kwargs
        = (kw, Except.ok r) →
      ∃ v, kw = listInsert kwargs pn v ∧ r = func args kw ∧ listGet kw pn = some v
        ∧ ∀ k, k ≠ pn → listGet kw k = listGet kwargs k)
    ∧ (from_form io pn pt default required multiple validate an req func args kwargs
        = (kw, Except.ok r) →
      ∃ v, kw = listInsert kwargs pn v ∧ r = func args kw ∧ listGet kw pn = some v
        ∧ ∀ k, k ≠ pn → listGet kw k = listGet kwargs k) := by
  have main : ∀ (src : MultiDict),
      (match io.parseIntoParam pn pt src an default required multiple validate kwargs with
       | (kw2, Option.none) => (kw2, Except.ok (func args kw2))
       | (kw2, Option.some e) => (kw2, Except.error e)) = (kw, Except.ok r) →
      ∃ v, kw = listInsert kwargs pn v ∧ r = func args kw ∧ listGet kw pn = some v
        ∧ ∀ k, k ≠ pn → listGet kw k = listGet kwargs k := by
    intro src h
    cases hq : io.parseIntoParam pn pt src an default required multiple validate kwargs with
    | mk kw2 oe =>
      cases oe with
      | none =>
        simp only [hq] at h
        obtain ⟨v, hv⟩ := parseIntoParam_ok io pn pt src an default required multiple
          validate kwargs kw2 hq
        have hkw : kw2 = kw := congrArg Prod.fst h
        have hr : r = func args kw := by
          have := congrArg Prod.snd h
          simp only at this
          cases this
          rw [hkw]
        subst hkw
        refine ⟨v, hv ▸ ?_, hr, ?_, ?_⟩
        · exact hv ▸ rfl
        · rw [hv]
          exact listGet_listInsert_self kwargs pn v
        · intro k hk
          rw [hv]
          exact listGet_listInsert_ne kwargs pn k v hk
      | some e =>
        simp only [hq] at h
        exact absurd (congrArg Prod.snd h) (by simp)
  exact ⟨main req.args, main req.headers, main req.cookies, main req.form⟩

/-- Witness for C1: a concrete successful `from_query` run writes exactly
`kwargs['x']`. -/
theorem claim_C1_witness :
    (from_query ioW "x" PyType.int Option.none false false Option.none Option.none reqW
        (fun _ kw => kw) [] [("z", Val.bool true)]
      = ([("z", Val.bool true), ("x", Val.int 5)],
         Except.ok [("z", Val.bool true), ("x", Val.int 5)]))
    ∧ ∃ v, [("z", Val.bool true), ("x", Val.int 5)]
          = listInsert [("z", Val.bool true)] "x" v
        ∧ ([("z", Val.bool true), ("x", Val.int 5)] : Kwargs)
          = (fun (_ : List Val) (kw : Kwargs) => kw) [] [("z", Val.bool true), ("x", Val.int 5)]
        ∧ listGet ([("z", Val.bool true), ("x", Val.int 5)] : Kwargs) "x" = some v
        ∧ ∀ k, k ≠ "x" →
            listGet ([("z", Val.bool true), ("x", Val.int 5)] : Kwargs) k
              = listGet ([("z", Val.bool true)] : Kwargs) k :=
  ⟨rfl,
   (claim_C1 Kwargs ioW "x" PyType.int Option.none false false Option.none Option.none reqW
      (fun _ kw => kw) [] [("z", Val.bool true)]
      [("z", Val.bool true), ("x", Val.int 5)]
      [("z", Val.bool true), ("x", Val.int 5)]).1 rfl⟩

/-- Claim C9: for every `from_*` decorator, when extraction fails the
keyword-argument dictionary is exactly as it was before the wrapper ran, and
the wrapped handler is never called: the wrapper's outcome is the same for
every handler. -/
theorem claim_C9 (ρ σ : Type) (io : FlaskIOState) (pn : String) (pt : PyType)
    (default : Option DefaultV) (required multiple : Bool)
    (validate : Option (String → Val → VOutcome)) (validateB : Option (Val → VOutcome))
    (an : Option String) (req : Request) (func : List Val → Kwargs → ρ)
    (g : List Val → Kwargs → σ) (args : List Val) (kwargs kw : Kwargs) (e : PyError) :
    (from_query io pn pt default required multiple validate an req func args kwargs
        = (kw, Except.error e) →
      kw = kwargs ∧ from_query io pn pt default required multiple validate an req g args kwargs
        = (kwargs, Except.error e))
    ∧ (from_header io pn pt default required multiple validate an req func args kwargs
        = (kw, Except.error e) →
      kw = kwargs ∧ from_header io pn pt default required multiple validate an req g args kwargs
        = (kwargs, Except.error e))
    ∧ (from_cookie io pn pt default required multiple validate an req func args kwargs
        = (kw, Except.error e) →
      kw = kwargs ∧ from_cookie io pn pt default required multiple validate an req g args kwargs
        = (kwargs, Except.error e))
    ∧ (from_form io pn pt default required multiple validate an req func args kwargs
        = (kw, Except.error e) →
      kw = kwargs ∧ from_form io pn pt default required multiple validate an req g args kwargs
        = (kwargs, Except.error e))
    ∧ (from_body io pn pt required validateB req func args kwargs
        = (kw, Except.error e) →
      kw = kwargs ∧ from_body io pn pt required validateB req g args kwargs
        = (kwargs, Except.error e)) := by
  have main : ∀ (src : MultiDict),
      (match io.parseIntoParam pn pt src an default required multiple validate kwargs with
       | (kw2, Option.none) => (kw2, Except.ok (func args kw2))
       | (kw2, Option.some e2) => (kw2, Except.error e2)) = (kw, Except.error e) →
      kw = kwargs ∧
        (match io.parseIntoParam pn pt src an default required multiple validate kwargs with
         | (kw2, Option.none) => (kw2, Except.ok (g args kw2))
         | (kw2, Option.some e2) => (kw2, Except.error e2)) = (kwargs, Except.error e) := by
    intro src h
    cases hq : io.parseIntoParam pn pt src an default required multiple validate kwargs with
    | mk kw2 oe =>
      cases oe with
      | none =>
        simp only [hq] at h
        exact absurd (congrArg Prod.snd h) (by simp)
      | some e2 =>
        simp only [hq] at h
        have hkw : kw2 = kw := congrArg Prod.fst h
        have he : e2 = e := by
          have := congrArg Prod.snd h
          simp only at this
          cases this
          rfl
        have hparams : kw2 = kwargs :=
          parseIntoParam_err io pn pt src an default required multiple validate kwargs kw2 e2 hq
        subst he
        refine ⟨hkw ▸ hparams, ?_⟩
        simp only [hq, hparams]
  have mainB :
      (match io.decodeIntoParam req pn pt required validateB kwargs with
       | (kw2, Option.none) => (kw2, Except.ok (func args kw2))
       | (kw2, Option.some e2) => (kw2, Except.error e2)) = (kw, Except.error e) →
      kw = kwargs ∧
        (match io.decodeIntoParam req pn pt required validateB kwargs with
         | (kw2, Option.none) => (kw2, Except.ok (g args kw2))
         | (kw2, Option.some e2) => (kw2, Except.error e2)) = (kwargs, Except.error e) := by
    intro h
    cases hq : io.decodeIntoParam req pn pt required validateB kwargs with
    | mk kw2 oe =>
      cases oe with
      | none =>
        simp only [hq] at h
        exact absurd (congrArg Prod.snd h) (by simp)
      | some e2 =>
        simp only [hq] at h
        have hkw : kw2 = kw := congrArg Prod.fst h
        have he : e2 = e := by
          have := congrArg Prod.snd h
          simp only at this
          cases this
          rfl
        have hparams : kw2 = kwargs :=
          decodeIntoParam_err io req pn pt required validateB kwargs kw2 e2 hq
        subst he
        refine ⟨hkw ▸ hparams, ?_⟩
        simp only [hq, hparams]
  exact ⟨main req.args, main req.headers, main req.cookies, main req.form, mainB⟩

/-- Witness for C9: a concrete failing `from_query` run (missing required
argument) leaves `kwargs` untouched and ignores the handler. -/
theorem claim_C9_witness :
    (from_query ioW "q" PyType.int Option.none true false Option.none Option.none reqW
        (fun _ _ => Val.none) [] [("z", Val.bool true)]
      = ([("z", Val.bool true)], Except.error (requiredArgError "q")))
    ∧ ([("z", Val.bool true)] : Kwargs) = [("z", Val.bool true)]
    ∧ from_query ioW "q" PyType.int Option.none true false Option.none Option.none reqW
        (fun _ _ => (0 : Nat)) [] [("z", Val.bool true)]
      = ([("z", Val.bool true)], Except.error (requiredArgError "q")) :=
  ⟨rfl,
   (claim_C9 Val Nat ioW "q" PyType.int Option.none true false Option.none Option.none
      Option.none reqW (fun _ _ => Val.none) (fun _ _ => (0 : Nat)) []
      [("z", Val.bool true)] [("z", Val.bool true)] (requiredArgError "q")).1 rfl⟩

end FlaskIOSpec


namespace FlaskIOSpec

/-- Every exception of the raw-coercion block of `__parse` is the
invalid-argument `ValidationError`. -/
theorem parseRaw_err (parser : ParserFun) (pt : PyType) (an : String)
    (raw : Option String) (e : PyError) (h : parseRaw parser pt an raw = Except.error e) :
    e = invalidArgError an := by
  cases raw with
  | none => simp [parseRaw] at h
  | some s =>
    simp only [parseRaw] at h
    by_cases hs : pyTruthyStr s = true
    · rw [if_pos hs] at h
      cases hq : parser pt s with
      | ok v =>
        simp only [hq] at h
        exact Except.noConfusion h
      | error e2 =>
        simp only [hq] at h
        injection h with he
        exact he.symm
    · rw [if_neg hs] at h
      simp at h

/-- Every exception of the missing-value block of `__parse` is the
required-argument `ValidationError`. -/
theorem applyDefaultRequired_err (an : String) (default : Option DefaultV)
    (required : Bool) (v : Val) (e : PyError)
    (h : applyDefaultRequired an default required v = Except.error e) :
    e = requiredArgError an := by
  unfold applyDefaultRequired at h
  by_cases hv : v.truthy = true
  · rw [if_pos hv] at h
    simp at h
  · rw [if_neg hv] at h
    by_cases hr : required = true
    · rw [if_pos hr] at h
      injection h with he
      exact he.symm
    · rw [if_neg hr] at h
      cases default with
      | none => simp at h
      | some d => simp at h

/-- Every exception of the validation block of `__parse` is a
`ValidationError`. -/
theorem applyValidateArg_err (validate : Option (String → Val → VOutcome)) (an : String)
    (v : Val) (e : PyError) (h : applyValidateArg validate an v = Except.error e) :
    ∃ r l m, e = PyError.validation r l m := by
  cases validate with
  | none => exact Except.noConfusion h
  | some f =>
    simp only [applyValidateArg] at h
    cases hq : f an v with
    | returns b =>
      simp only [hq] at h
      cases b with
      | true => simp at h
      | false =>
        simp only [Bool.false_eq_true, if_neg] at h
        injection h with he
        exact ⟨_, _, _, he.symm⟩
    | raises e2 =>
      simp only [hq] at h
      cases e2 with
      | validation r l m => injection h with he; exact ⟨r, l, m, he.symm⟩
      | mediaTypeSupported l m => injection h with he; exact ⟨_, _, _, he.symm⟩
      | flaskIOError m => injection h with he; exact ⟨_, _, _, he.symm⟩
      | pyException m => injection h with he; exact ⟨_, _, _, he.symm⟩

/-- Every exception of `__parse` is a `ValidationError`. -/
theorem parse_err (parser : ParserFun) (pt : PyType) (an : String) (raw : Option String)
    (default : Option DefaultV) (required : Bool)
    (validate : Option (String → Val → VOutcome)) (e : PyError)
    (h : FlaskIOState.parse parser pt an raw default required validate = Except.error e) :
    ∃ r l m, e = PyError.validation r l m := by
  unfold FlaskIOState.parse at h
  cases h1 : parseRaw parser pt an raw with
  | error e1 =>
    simp only [h1, Except.bind] at h
    injection h with he
    rw [← he, parseRaw_err parser pt an raw e1 h1]
    exact ⟨_, _, _, rfl⟩
  | ok v1 =>
    simp only [h1, Except.bind] at h
    cases h2 : applyDefaultRequired an default required v1 with
    | error e2 =>
      simp only [h2, Except.bind] at h
      injection h with he
      rw [← he, applyDefaultRequired_err an default required v1 e2 h2]
      exact ⟨_, _, _, rfl⟩
    | ok v2 =>
      simp only [h2, Except.bind] at h
      exact applyValidateArg_err validate an v2 e h

/-- Every exception of the `multiple=True` loop of `__parse_into_param` is a
`ValidationError`. -/
theorem parseAll_err (parser : ParserFun) (pt : PyType) (an : String)
    (default : Option DefaultV) (required : Bool)
    (validate : Option (String → Val → VOutcome)) (raws : List (Option String)) :
    ∀ (e : PyError),
      parseAll parser pt an default required validate raws = Except.error e →
      ∃ r l m, e = PyError.validation r l m := by
  induction raws with
  | nil =>
    intro e h
    exact Except.noConfusion h
  | cons raw rest ih =>
    intro e h
    simp only [parseAll] at h
    cases h1 : FlaskIOState.parse parser pt an raw default required validate with
    | error e1 =>
      simp only [h1, Except.bind] at h
      injection h with he
      rw [← he]
      exact parse_err parser pt an raw default required validate e1 h1
    | ok v =>
      simp only [h1, Except.bind] at h
      cases h2 : parseAll parser pt an default required validate rest with
      | error e2 =>
        simp only [h2] at h
        injection h with he
        rw [← he]
        exact ih e2 h2
      | ok vs =>
        simp only [h2] at h
        exact Except.noConfusion h

/-- Every exception of the decoding block of `__decode_into_param` is a
`MediaTypeSupported` or the invalid-payload `ValidationError`. -/
theorem decodePayload_err (io : FlaskIOState) (req : Request) (pt : PyType) (e : PyError)
    (h : decodePayload io req pt = Except.error e) :
    (∃ l m, e = PyError.mediaTypeSupported l m)
    ∨ e = PyError.validation ErrorReason.invalid_parameter "payload" "Payload is invalid." := by
  unfold decodePayload at h
  by_cases hs : pt = PyType.str
  · rw [if_pos hs] at h
    simp at h
  · rw [if_neg hs] at h
    cases hq : io.decode req req.body with
    | ok v =>
      simp only [hq] at h
      exact Except.noConfusion h
    | error e2 =>
      simp only [hq] at h
      cases e2 with
      | validation r l m => injection h with he; exact Or.inr he.symm
      | mediaTypeSupported l m => injection h with he; exact Or.inl ⟨l, m, he.symm⟩
      | flaskIOError m => injection h with he; exact Or.inr he.symm
      | pyException m => injection h with he; exact Or.inr he.symm

/-- Every exception of the validation block of `__decode_into_param` is a
`ValidationError`. -/
theorem applyValidateBody_err (validate : Option (Val → VOutcome)) (v : Val) (e : PyError)
    (h : applyValidateBody validate v = Except.error e) :
    ∃ r l m, e = PyError.validation r l m := by
  cases validate with
  | none => exact Except.noConfusion h
  | some f =>
    simp only [applyValidateBody] at h
    cases hq : f v with
    | returns b =>
      simp only [hq] at h
      cases b with
      | true => simp at h
      | false =>
        simp only [Bool.false_eq_true, if_neg] at h
        injection h with he
        exact ⟨_, _, _, he.symm⟩
    | raises e2 =>
      simp only [hq] at h
      cases e2 with
      | validation r l m => injection h with he; exact ⟨r, l, m, he.symm⟩
      | mediaTypeSupported l m => injection h with he; exact ⟨_, _, _, he.symm⟩
      | flaskIOError m => injection h with he; exact ⟨_, _, _, he.symm⟩
      | pyException m => injection h with he; exact ⟨_, _, _, he.symm⟩

end FlaskIOSpec

namespace FlaskIOSpec

/-- Claim C4: with `from_body(param_name, param_type, required=True)`, an
empty request body raises the required-payload `ValidationError` before any
decoding is attempted (the outcome does not depend on the decoder registry or
the content type); with `required=False` an empty body never produces that
error. -/
theorem claim_C4 (ρ : Type) (io : FlaskIOState) (pn : String) (pt : PyType)
    (req : Request) (func : List Val → Kwargs → ρ) (args : List Val)
    (kwargs kw : Kwargs) (hbody : req.body = "") :
    (from_body io pn pt true Option.none req func args kwargs
      = (kwargs, Except.error (PyError.validation ErrorReason.required_parameter "payload"
          "Payload is missing.")))
    ∧ (∀ e, from_body io pn pt false Option.none req func args kwargs
        = (kw, Except.error e) →
      ∀ m, e ≠ PyError.validation ErrorReason.required_parameter "payload" m) := by
  have hd : io.decodeIntoParam req pn pt true Option.none kwargs
      = (kwargs, some (PyError.validation ErrorReason.required_parameter "payload"
          "Payload is missing.")) := by
    unfold FlaskIOState.decodeIntoParam
    rw [if_pos]
    exact ⟨by rw [hbody]; decide, rfl⟩
  constructor
  · show (match io.decodeIntoParam req pn pt true Option.none kwargs with
          | (kw2, Option.none) => (kw2, Except.ok (func args kw2))
          | (kw2, Option.some e2) => (kw2, Except.error e2)) = _
    simp only [hd]
  · intro e he m hne
    unfold from_body at he
    cases hq : io.decodeIntoParam req pn pt false Option.none kwargs with
    | mk kw2 oe =>
      cases oe with
      | none =>
        simp only [hq] at he
        exact Except.noConfusion (congrArg Prod.snd he)
      | some e2 =>
        simp only [hq] at he
        have he2 : e2 = e := by
          have hsnd := congrArg Prod.snd he
          simp only at hsnd
          injection hsnd
        unfold FlaskIOState.decodeIntoParam at hq
        rw [if_neg (fun hc => Bool.noConfusion hc.2)] at hq
        cases hb : (decodePayload io req pt).bind
            (fun v => applyValidateBody Option.none v) with
        | ok v =>
          simp only [hb] at hq
          exact absurd (congrArg Prod.snd hq) (by simp)
        | error e3 =>
          simp only [hb] at hq
          have he3 : e3 = e2 := by
            have hsnd := congrArg Prod.snd hq
            simp only at hsnd
            injection hsnd
          cases hdp : decodePayload io req pt with
          | ok v =>
            simp only [hdp, Except.bind] at hb
            exact Except.noConfusion hb
          | error e4 =>
            simp only [hdp, Except.bind] at hb
            have he4 : e4 = e3 := by injection hb
            rw [he4, he3, he2] at hdp
            rcases decodePayload_err io req pt e hdp with ⟨l, m2, hl⟩ | hl
            · rw [hne] at hl
              exact PyError.noConfusion hl
            · rw [hne] at hl
              have := congrArg (fun x => match x with
                | PyError.validation r _ _ => r
                | _ => ErrorReason.invalid_parameter) hl
              simp only at this
              exact ErrorReason.noConfusion this

/-- Witness for C4: a concrete required `from_body` on an empty-body request
raises the required-payload error. -/
theorem claim_C4_witness :
    reqW.body = ""
    ∧ from_body ioW "b" PyType.int true Option.none reqW (fun _ _ => Val.none) [] []
      = ([], Except.error (PyError.validation ErrorReason.required_parameter "payload"
          "Payload is missing.")) :=
  ⟨rfl, (claim_C4 Val ioW "b" PyType.int reqW (fun _ _ => Val.none) [] [] [] rfl).1⟩

end FlaskIOSpec

namespace FlaskIOSpec

/-- Core of the missing-value behaviour of `__parse`: when the value after
the raw-coercion block is falsy, `required=True` raises the required-argument
error for any `validate`, and `required=False` yields the
default-substituted value. -/
theorem parse_falsy_core (parser : ParserFun) (pt : PyType) (an : String)
    (raw : Option String) (default : Option DefaultV) (v1 : Val)
    (h1 : parseRaw parser pt an raw = Except.ok v1) (h2 : v1.truthy = false) :
    (∀ validate, FlaskIOState.parse parser pt an raw default true validate
      = Except.error (requiredArgError an))
    ∧ FlaskIOState.parse parser pt an raw default false Option.none
      = Except.ok (applyDefaultVal default v1) := by
  have hd : ∀ (required : Bool), applyDefaultRequired an default required v1
      = if required then Except.error (requiredArgError an)
        else Except.ok (applyDefaultVal default v1) := by
    intro required
    unfold applyDefaultRequired
    rw [if_neg]
    rw [h2]
    simp
  constructor
  · intro validate
    unfold FlaskIOState.parse
    rw [h1]
    simp only [Except.bind]
    rw [hd true]
    simp
  · unfold FlaskIOState.parse
    rw [h1]
    simp only [Except.bind]
    rw [hd false]
    simp only [if_neg, Bool.false_eq_true]
    rfl

/-- Claim C8 (amended): for `multiple=False`, a raw value that is absent,
empty, or parses to a falsy value is treated as missing: `required=True`
raises the required-argument `ValidationError` even when the argument was
present, and otherwise the parameter value is `applyDefaultVal default v`:
the default (or `default()` when callable) replaces the falsy value only
when the default itself is truthy (callables always are); a falsy default
leaves the falsy parsed value in place. -/
theorem claim_C8 (parser : ParserFun) (pt : PyType) (an : String)
    (raw : Option String) (default : Option DefaultV) (v1 : Val)
    (validate : Option (String → Val → VOutcome))
    (h1 : parseRaw parser pt an raw = Except.ok v1) (h2 : v1.truthy = false) :
    (FlaskIOState.parse parser pt an raw default true validate
      = Except.error (requiredArgError an))
    ∧ FlaskIOState.parse parser pt an raw default false Option.none
      = Except.ok (applyDefaultVal default v1) :=
  ⟨(parse_falsy_core parser pt an raw default v1 h1 h2).1 validate,
   (parse_falsy_core parser pt an raw default v1 h1 h2).2⟩

/-- Counterexample for C8 as stated: the argument is absent and the given
default is the falsy `0`, yet the parameter value is `None`, not the default
`0` — the default does not replace the value (`if default:` skips falsy
defaults). -/
theorem claim_C8_counterexample :
    from_query ioW "q" PyType.int (some (DefaultV.val (Val.int 0))) false false
        Option.none Option.none reqW (fun _ kw => kw) [] []
      = ([("q", Val.none)], Except.ok [("q", Val.none)])
    ∧ Val.none ≠ Val.int 0 :=
  ⟨rfl, fun h => Val.noConfusion h⟩

/-- Witness for C8: a concrete bool argument present as `'no'` parses to
`False` (falsy); with `required=True` the required-argument error is raised,
and with `required=False` a truthy default `7` replaces it. -/
theorem claim_C8_witness :
    (parseRaw parse_bool PyType.bool "x" (some "no") = Except.ok (Val.bool false))
    ∧ (Val.bool false).truthy = false
    ∧ (FlaskIOState.parse parse_bool PyType.bool "x" (some "no")
        (some (DefaultV.val (Val.int 7))) true Option.none
      = Except.error (requiredArgError "x"))
    ∧ FlaskIOState.parse parse_bool PyType.bool "x" (some "no")
        (some (DefaultV.val (Val.int 7))) false Option.none
      = Except.ok (applyDefaultVal (some (DefaultV.val (Val.int 7))) (Val.bool false)) :=
  ⟨rfl, rfl,
   (claim_C8 parse_bool PyType.bool "x" (some "no") (some (DefaultV.val (Val.int 7)))
      (Val.bool false) Option.none rfl rfl).1,
   (claim_C8 parse_bool PyType.bool "x" (some "no") (some (DefaultV.val (Val.int 7)))
      (Val.bool false) Option.none rfl rfl).2⟩

end FlaskIOSpec

namespace FlaskIOSpec

/-- Claim C10 (amended): for `multiple=True`, when the argument is entirely
absent the raw list is replaced by `[None]`, so the handler still receives a
one-element list (never an empty one): with `required=True` the
required-argument `ValidationError` is raised instead (for any `validate`),
and otherwise the single element is `applyDefaultVal default None`: the
default (or `default()` when callable) when the default itself is truthy
(callables always are), `None` otherwise — including when a falsy
non-callable default was given. -/
theorem claim_C10 (io : FlaskIOState) (pn : String) (pt : PyType) (src : MultiDict)
    (an : Option String) (default : Option DefaultV)
    (validate : Option (String → Val → VOutcome)) (params : Kwargs)
    (parser : ParserFun)
    (hg : mdGetlist src (resolveArgName an pn) = [])
    (hp : listGet io.parsers pt = some parser) :
    (io.parseIntoParam pn pt src an default true true validate params
      = (params, some (requiredArgError (resolveArgName an pn))))
    ∧ io.parseIntoParam pn pt src an default false true Option.none params
      = (listInsert params pn (Val.list [applyDefaultVal default Val.none]),
         Option.none) := by
  have hraw : rawValuesFor src (resolveArgName an pn) = [Option.none] := by
    unfold rawValuesFor
    rw [hg]
    rfl
  have hpr : parseRaw parser pt (resolveArgName an pn) Option.none
      = Except.ok Val.none := rfl
  constructor
  · have hparse := (parse_falsy_core parser pt (resolveArgName an pn) Option.none default
      Val.none hpr rfl).1 validate
    have hall : parseAll parser pt (resolveArgName an pn) default true validate
        [Option.none] = Except.error (requiredArgError (resolveArgName an pn)) := by
      unfold parseAll
      rw [hparse]
      rfl
    unfold FlaskIOState.parseIntoParam
    simp only [hp, if_pos, hraw, hall]
  · have hparse := (parse_falsy_core parser pt (resolveArgName an pn) Option.none default
      Val.none hpr rfl).2
    have hall : parseAll parser pt (resolveArgName an pn) default false Option.none
        [Option.none] = Except.ok [applyDefaultVal default Val.none] := by
      unfold parseAll
      rw [hparse]
      rfl
    unfold FlaskIOState.parseIntoParam
    simp only [hp, if_pos, hraw, hall]

/-- Counterexample for C10 as stated: the argument is absent, `multiple=True`
and the given default is the falsy `0`, yet the one-element list holds
`None`, not the default `0`. -/
theorem claim_C10_counterexample :
    from_query ioW "q" PyType.int (some (DefaultV.val (Val.int 0))) false true
        Option.none Option.none reqW (fun _ kw => kw) [] []
      = ([("q", Val.list [Val.none])], Except.ok [("q", Val.list [Val.none])])
    ∧ Val.none ≠ Val.int 0 :=
  ⟨rfl, fun h => Val.noConfusion h⟩

/-- Witness for C10: with an absent argument and a truthy callable default,
`required=True` raises and otherwise the handler receives the one-element
list holding the default's value. -/
theorem claim_C10_witness :
    (mdGetlist ([] : MultiDict) "q" = [])
    ∧ (listGet ioW.parsers PyType.int = some parse_primitive)
    ∧ (ioW.parseIntoParam "q" PyType.int ([] : MultiDict) Option.none
        (some (DefaultV.func (fun _ => Val.str "d"))) true true Option.none []
      = ([], some (requiredArgError "q")))
    ∧ ioW.parseIntoParam "q" PyType.int ([] : MultiDict) Option.none
        (some (DefaultV.func (fun _ => Val.str "d"))) false true Option.none []
      = ([("q", Val.list [applyDefaultVal (some (DefaultV.func (fun _ => Val.str "d")))
          Val.none])], Option.none) :=
  ⟨rfl, rfl,
   (claim_C10 ioW "q" PyType.int ([] : MultiDict) Option.none
      (some (DefaultV.func (fun _ => Val.str "d"))) Option.none [] parse_primitive
      rfl rfl).1,
   (claim_C10 ioW "q" PyType.int ([] : MultiDict) Option.none
      (some (DefaultV.func (fun _ => Val.str "d"))) Option.none [] parse_primitive
      rfl rfl).2⟩

end FlaskIOSpec

namespace FlaskIOSpec

/-- Counterexample for C6 as stated: extracting a parameter whose type has no
registered parser raises a `FlaskIOError`, which is neither a
`ValidationError` nor a `MediaTypeSupported`. -/
theorem claim_C6_counterexample :
    (FlaskIOState.empty.parseIntoParam "x" PyType.int ([] : MultiDict) Option.none
        Option.none false false Option.none []
      = ([], some (PyError.flaskIOError
          "Parameter type '<class 'int'>' does not have a parser.")))
    ∧ PyError.isSimple (PyError.flaskIOError
        "Parameter type '<class 'int'>' does not have a parser.") = false :=
  ⟨rfl, rfl⟩

/-- Claim C6 (amended): every failure of parameter extraction, body decoding
or response encoding raises a `ValidationError` or `MediaTypeSupported`,
except that parameter extraction for a type with no registered parser raises
a `FlaskIOError`, and response encoding when no encoder was ever registered
(default encoder still `None`) fails with a plain `AttributeError` rather
than a flask-io error object. -/
theorem claim_C6 :
    (∀ (io : FlaskIOState) (pn : String) (pt : PyType) (src : MultiDict)
        (an : Option String) (default : Option DefaultV) (required multiple : Bool)
        (validate : Option (String → Val → VOutcome)) (params kw : Kwargs) (e : PyError),
      io.parseIntoParam pn pt src an default required multiple validate params
          = (kw, some e) →
      e.isSimple = true
        ∨ (listGet io.parsers pt = Option.none ∧ ∃ m, e = PyError.flaskIOError m))
    ∧ (∀ (io : FlaskIOState) (req : Request) (pn : String) (pt : PyType) (required : Bool)
        (validate : Option (Val → VOutcome)) (params kw : Kwargs) (e : PyError),
      io.decodeIntoParam req pn pt required validate params = (kw, some e) →
      e.isSimple = true)
    ∧ (∀ (io : FlaskIOState) (req : Request) (v : Val) (e : PyError),
      io.encode req v = Except.error e →
      e.isSimple = true
        ∨ (io.default_encoder = Option.none ∧ ∃ m, e = PyError.pyException m)) := by
  refine ⟨?_, ?_, ?_⟩
  · intro io pn pt src an default required multiple validate params kw e h
    unfold FlaskIOState.parseIntoParam at h
    cases hp : listGet io.parsers pt with
    | none =>
      simp only [hp] at h
      have hsnd := congrArg Prod.snd h
      simp only at hsnd
      injection hsnd with he
      exact Or.inr ⟨rfl, _, he.symm⟩
    | some parser =>
      simp only [hp] at h
      cases multiple with
      | true =>
        simp only [if_pos] at h
        cases hq : parseAll parser pt (resolveArgName an pn) default required validate
            (rawValuesFor src (resolveArgName an pn)) with
        | ok vs =>
          simp only [hq] at h
          exact absurd (congrArg Prod.snd h) (by simp)
        | error e2 =>
          simp only [hq] at h
          have hsnd := congrArg Prod.snd h
          simp only at hsnd
          injection hsnd with he
          obtain ⟨r, l, m, hv⟩ := parseAll_err parser pt (resolveArgName an pn) default
            required validate (rawValuesFor src (resolveArgName an pn)) e2 hq
          rw [← he, hv]
          exact Or.inl rfl
      | false =>
        simp only [Bool.false_eq_true, if_neg] at h
        cases hq : FlaskIOState.parse parser pt (resolveArgName an pn)
            (mdGet src (resolveArgName an pn)) default required validate with
        | ok v2 =>
          simp only [hq] at h
          exact absurd (congrArg Prod.snd h) (by simp)
        | error e2 =>
          simp only [hq] at h
          have hsnd := congrArg Prod.snd h
          simp only at hsnd
          injection hsnd with he
          obtain ⟨r, l, m, hv⟩ := parse_err parser pt (resolveArgName an pn)
            (mdGet src (resolveArgName an pn)) default required validate e2 hq
          rw [← he, hv]
          exact Or.inl rfl
  · intro io req pn pt required validate params kw e h
    unfold FlaskIOState.decodeIntoParam at h
    by_cases hb : ¬ pyTruthyStr req.body ∧ required = true
    · rw [if_pos hb] at h
      have hsnd := congrArg Prod.snd h
      simp only at hsnd
      injection hsnd with he
      rw [← he]
      rfl
    · rw [if_neg hb] at h
      cases hq : (decodePayload io req pt).bind (fun v => applyValidateBody validate v) with
      | ok v =>
        simp only [hq] at h
        exact absurd (congrArg Prod.snd h) (by simp)
      | error e3 =>
        simp only [hq] at h
        have hsnd := congrArg Prod.snd h
        simp only at hsnd
        injection hsnd with he
        rw [← he]
        cases hdp : decodePayload io req pt with
        | ok v2 =>
          simp only [hdp, Except.bind] at hq
          obtain ⟨r, l, m, hv⟩ := applyValidateBody_err validate v2 e3 hq
          rw [hv]
          rfl
        | error e4 =>
          simp only [hdp, Except.bind] at hq
          injection hq with he4
          rw [← he4]
          rcases decodePayload_err io req pt e4 hdp with ⟨l, m, hv⟩ | hv
          · rw [hv]; rfl
          · rw [hv]; rfl
  · intro io req v e h
    unfold FlaskIOState.encode at h
    cases hm : encodeMediaTypes io (getHeader req.headers "accept") with
    | error e1 =>
      simp only [hm, Except.bind] at h
      injection h with he
      unfold encodeMediaTypes at hm
      by_cases hc : ¬ pyTruthyStr (getHeader req.headers "accept") = true
          ∨ pyContains (getHeader req.headers "accept") "*/*" = true
      · rw [if_pos hc] at hm
        cases hde : io.default_encoder with
        | none =>
          simp only [hde] at hm
          injection hm with he1
          rw [← he, ← he1]
          exact Or.inr ⟨rfl, _, rfl⟩
        | some d =>
          simp only [hde] at hm
          exact Except.noConfusion hm
      · rw [if_neg hc] at hm
        exact Except.noConfusion hm
    | ok media_types =>
      simp only [hm, Except.bind] at h
      cases hf : findEnc io.encoders media_types with
      | some me =>
        simp only [hf] at h
        exact Except.noConfusion h
      | none =>
        simp only [hf] at h
        injection h with he
        rw [← he]
        exact Or.inl rfl

/-- Witness for C6: the concrete missing-parser failure falls under the
`FlaskIOError` exception of the amended claim. -/
theorem claim_C6_witness :
    (FlaskIOState.empty.parseIntoParam "y" PyType.float ([] : MultiDict) Option.none
        Option.none false false Option.none []
      = ([], some (PyError.flaskIOError
          "Parameter type '<class 'float'>' does not have a parser.")))
    ∧ ((PyError.flaskIOError
          "Parameter type '<class 'float'>' does not have a parser.").isSimple = true
      ∨ (listGet FlaskIOState.empty.parsers PyType.float = Option.none
        ∧ ∃ m, PyError.flaskIOError
            "Parameter type '<class 'float'>' does not have a parser."
          = PyError.flaskIOError m)) :=
  ⟨rfl,
   (claim_C6.1 FlaskIOState.empty "y" PyType.float ([] : MultiDict) Option.none
      Option.none false false Option.none [] []
      (PyError.flaskIOError "Parameter type '<class 'float'>' does not have a parser.")
      rfl)⟩

end FlaskIOSpec

namespace FlaskIOSpec

/-- `__parse` with a `validate` callback is `__parse` without one followed by
the validation block on its value. -/
theorem parse_validate_shift (parser : ParserFun) (pt : PyType) (an : String)
    (raw : Option String) (default : Option DefaultV) (required : Bool) (v : Val)
    (h : FlaskIOState.parse parser pt an raw default required Option.none = Except.ok v)
    (validate : Option (String → Val → VOutcome)) :
    FlaskIOState.parse parser pt an raw default required validate
      = applyValidateArg validate an v := by
  unfold FlaskIOState.parse at h ⊢
  cases h1 : parseRaw parser pt an raw with
  | error e1 =>
    simp only [h1, Except.bind] at h
    exact Except.noConfusion h
  | ok v1 =>
    simp only [h1, Except.bind] at h ⊢
    cases h2 : applyDefaultRequired an default required v1 with
    | error e2 =>
      simp only [h2] at h
      exact Except.noConfusion h
    | ok v2 =>
      simp only [h2] at h ⊢
      have : v2 = v := by
        have h3 : Except.ok (ε := PyError) v2 = Except.ok v := h
        injection h3
      rw [this]

/-- The validation behaviour of a `VOutcome`, spelled out for
`applyValidateArg`. -/
theorem applyValidateArg_cases (f : String → Val → VOutcome) (an : String) (v : Val) :
    (∀ r l m, f an v = VOutcome.raises (PyError.validation r l m) →
      applyValidateArg (some f) an v = Except.error (PyError.validation r l m))
    ∧ (∀ e2, f an v = VOutcome.raises e2 → e2.isValidation = false →
      applyValidateArg (some f) an v = Except.error (invalidArgError an))
    ∧ (f an v = VOutcome.returns false →
      applyValidateArg (some f) an v = Except.error (invalidArgError an))
    ∧ (f an v = VOutcome.returns true →
      applyValidateArg (some f) an v = Except.ok v) := by
  refine ⟨?_, ?_, ?_, ?_⟩
  · intro r l m hf
    simp [applyValidateArg, hf]
  · intro e2 hf hv
    cases e2 with
    | validation r l m => exact absurd hv (by simp [PyError.isValidation])
    | mediaTypeSupported l m => simp [applyValidateArg, hf]
    | flaskIOError m => simp [applyValidateArg, hf]
    | pyException m => simp [applyValidateArg, hf]
  · intro hf
    simp [applyValidateArg, hf]
  · intro hf
    simp [applyValidateArg, hf]

/-- Claim C5: for every `from_*` decorator with a `validate` callback, a
`ValidationError` raised by the callback propagates unchanged; any other
exception or a falsy return yields the invalid-argument (or invalid-payload,
for `from_body`) `ValidationError`; and a truthy return accepts the parsed
value unchanged. -/
theorem claim_C5 :
    (∀ (parser : ParserFun) (pt : PyType) (an : String) (raw : Option String)
        (default : Option DefaultV) (required : Bool) (v : Val)
        (f : String → Val → VOutcome),
      FlaskIOState.parse parser pt an raw default required Option.none = Except.ok v →
      ((∀ r l m, f an v = VOutcome.raises (PyError.validation r l m) →
          FlaskIOState.parse parser pt an raw default required (some f)
            = Except.error (PyError.validation r l m))
        ∧ (∀ e2, f an v = VOutcome.raises e2 → e2.isValidation = false →
          FlaskIOState.parse parser pt an raw default required (some f)
            = Except.error (invalidArgError an))
        ∧ (f an v = VOutcome.returns false →
          FlaskIOState.parse parser pt an raw default required (some f)
            = Except.error (invalidArgError an))
        ∧ (f an v = VOutcome.returns true →
          FlaskIOState.parse parser pt an raw default required (some f)
            = Except.ok v)))
    ∧ (∀ (io : FlaskIOState) (req : Request) (pn : String) (pt : PyType)
        (required : Bool) (params : Kwargs) (v : Val) (g : Val → VOutcome),
      decodePayload io req pt = Except.ok v →
      ¬ (¬ pyTruthyStr req.body ∧ required = true) →
      ((∀ r l m, g v = VOutcome.raises (PyError.validation r l m) →
          io.decodeIntoParam req pn pt required (some g) params
            = (params, some (PyError.validation r l m)))
        ∧ (∀ e2, g v = VOutcome.raises e2 → e2.isValidation = false →
          io.decodeIntoParam req pn pt required (some g) params
            = (params, some (PyError.validation ErrorReason.invalid_parameter "payload"
                "Payload is invalid.")))
        ∧ (g v = VOutcome.returns false →
          io.decodeIntoParam req pn pt required (some g) params
            = (params, some (PyError.validation ErrorReason.invalid_parameter "payload"
                "Payload is invalid.")))
        ∧ (g v = VOutcome.returns true →
          io.decodeIntoParam req pn pt required (some g) params
            = (listInsert params pn v, Option.none)))) := by
  constructor
  · intro parser pt an raw default required v f h
    have hs := parse_validate_shift parser pt an raw default required v h (some f)
    obtain ⟨c1, c2, c3, c4⟩ := applyValidateArg_cases f an v
    refine ⟨?_, ?_, ?_, ?_⟩
    · intro r l m hf
      rw [hs]
      exact c1 r l m hf
    · intro e2 hf hv
      rw [hs]
      exact c2 e2 hf hv
    · intro hf
      rw [hs]
      exact c3 hf
    · intro hf
      rw [hs]
      exact c4 hf
  · intro io req pn pt required params v g hdp hb
    have hbody : ∀ (oc : Except PyError Val),
        applyValidateBody (some g) v = oc →
        io.decodeIntoParam req pn pt required (some g) params
          = (match oc with
             | Except.ok v2 => (listInsert params pn v2, Option.none)
             | Except.error e => (params, some e)) := by
      intro oc hoc
      unfold FlaskIOState.decodeIntoParam
      rw [if_neg hb]
      simp only [hdp, Except.bind, hoc]
    refine ⟨?_, ?_, ?_, ?_⟩
    · intro r l m hf
      exact hbody (Except.error (PyError.validation r l m))
        (by simp [applyValidateBody, hf])
    · intro e2 hf hv
      refine hbody (Except.error (PyError.validation ErrorReason.invalid_parameter
        "payload" "Payload is invalid.")) ?_
      cases e2 with
      | validation r l m => exact absurd hv (by simp [PyError.isValidation])
      | mediaTypeSupported l m => simp [applyValidateBody, hf]
      | flaskIOError m => simp [applyValidateBody, hf]
      | pyException m => simp [applyValidateBody, hf]
    · intro hf
      refine hbody (Except.error (PyError.validation ErrorReason.invalid_parameter
        "payload" "Payload is invalid.")) ?_
      simp [applyValidateBody, hf]
    · intro hf
      refine hbody (Except.ok v) ?_
      simp [applyValidateBody, hf]

/-- Witness for C5: a concrete validate callback that raises a
`ValidationError` on the parsed value `5` propagates it unchanged. -/
theorem claim_C5_witness :
    (FlaskIOState.parse parse_primitive PyType.int "x" (some "5") Option.none false
        Option.none = Except.ok (Val.int 5))
    ∧ ((fun (_ : String) (_ : Val) =>
          VOutcome.raises (PyError.validation ErrorReason.invalid_parameter "x" "bad"))
        "x" (Val.int 5)
      = VOutcome.raises (PyError.validation ErrorReason.invalid_parameter "x" "bad"))
    ∧ FlaskIOState.parse parse_primitive PyType.int "x" (some "5") Option.none false
        (some (fun _ _ =>
          VOutcome.raises (PyError.validation ErrorReason.invalid_parameter "x" "bad")))
      = Except.error (PyError.validation ErrorReason.invalid_parameter "x" "bad") :=
  ⟨rfl, rfl,
   ((claim_C5.1 parse_primitive PyType.int "x" (some "5") Option.none false (Val.int 5)
      (fun _ _ =>
        VOutcome.raises (PyError.validation ErrorReason.invalid_parameter "x" "bad"))
      rfl).1 ErrorReason.invalid_parameter "x" "bad" rfl)⟩

end FlaskIOSpec

namespace FlaskIOSpec

theorem applyStatus_body (r : Response) (st : Option PyStatus) :
    (applyStatus r st).body = r.body := by
  cases st <;> rfl

theorem applyStatus_mimetype (r : Response) (st : Option PyStatus) :
    (applyStatus r st).mimetype = r.mimetype := by
  cases st <;> rfl

theorem extendHeaders_body (r : Response) (hs : List (String × String)) :
    (extendHeaders r hs).body = r.body := by
  unfold extendHeaders
  by_cases h : hs.isEmpty = true
  · rw [if_pos h]
  · rw [if_neg h]

theorem extendHeaders_mimetype (r : Response) (hs : List (String × String)) :
    (extendHeaders r hs).mimetype = r.mimetype := by
  unfold extendHeaders
  by_cases h : hs.isEmpty = true
  · rw [if_pos h]
  · rw [if_neg h]

/-- Splitting on a character that does not occur leaves the list whole. -/
theorem splitOnChar_not_contains (sep : Char) (cs : List Char)
    (h : listContainsSub [sep] cs = false) : splitOnChar sep cs = [cs] := by
  induction cs with
  | nil => rfl
  | cons c rest ih =>
    unfold listContainsSub at h
    by_cases hp : [sep].isPrefixOf (c :: rest) = true
    · rw [if_pos hp] at h
      exact Bool.noConfusion h
    · rw [if_neg hp] at h
      have hc : ¬ (c = sep) := by
        intro hcc
        apply hp
        simp [List.isPrefixOf, hcc]
      unfold splitOnChar
      rw [if_neg hc, ih h]

/-- A media type without `';'` is its own `split(';')[0]`. -/
theorem pySplitHead_no_semicolon (d : String) (h : pyContains d ";" = false) :
    pySplitHead d ';' = d := by
  unfold pySplitHead pySplit
  have hd : (";" : String).data = [';'] := rfl
  unfold pyContains at h
  rw [hd] at h
  rw [splitOnChar_not_contains ';' d.data h]
  rfl

end FlaskIOSpec

namespace FlaskIOSpec

/-- When the handler returned plain data and encoding succeeds,
`__encode_into_body` yields a `Response` whose body is the encoded bytes and
whose mimetype is the negotiated media type, whatever status or headers the
handler also returned. -/
theorem encodeIntoBody_value (io : FlaskIOState) (req : Request) (out : HandlerOut)
    (v : Val) (st : Option PyStatus) (hs : List (String × String))
    (hOut : normalizeOut out = (RawData.value v, st, hs)) (mt bts : String)
    (henc : io.encode req v = Except.ok (mt, bts)) :
    ∃ r, io.encodeIntoBody req out = Except.ok r
      ∧ r.body = bts ∧ r.mimetype = some mt := by
  unfold FlaskIOState.encodeIntoBody
  simp only [hOut, henc, Except.bind]
  refine ⟨_, rfl, ?_, ?_⟩
  · rw [extendHeaders_body, applyStatus_body]
  · rw [extendHeaders_mimetype, applyStatus_mimetype]

/-- When the handler returned plain data and encoding fails, the exception
propagates out of `__encode_into_body`. -/
theorem encodeIntoBody_value_err (io : FlaskIOState) (req : Request) (out : HandlerOut)
    (v : Val) (st : Option PyStatus) (hs : List (String × String))
    (hOut : normalizeOut out = (RawData.value v, st, hs)) (e : PyError)
    (henc : io.encode req v = Except.error e) :
    io.encodeIntoBody req out = Except.error e := by
  unfold FlaskIOState.encodeIntoBody
  simp only [hOut, henc, Except.bind]

/-- Claim C2: for a render-decorated handler returning plain data, when the
`Accept` header is non-empty and does not contain `'*/*'`, the response body
is produced by the encoder registered for the first media type (the text
before the first `';'` of each comma-separated entry) in the Accept list
that has a registered encoder (`findEnc`), the response mimetype is that
media type, and `MediaTypeSupported` is raised when no listed entry has a
registered encoder. -/
theorem claim_C2 (io : FlaskIOState) (req : Request)
    (func : List Val → Kwargs → HandlerOut) (args : List Val) (kwargs : Kwargs)
    (v : Val) (st : Option PyStatus) (hs : List (String × String))
    (hAcc : pyTruthyStr (getHeader req.headers "accept") = true)
    (hStar : pyContains (getHeader req.headers "accept") "*/*" = false)
    (hOut : normalizeOut (func args kwargs) = (RawData.value v, st, hs)) :
    (∀ m enc,
      findEnc io.encoders (pySplit (getHeader req.headers "accept") ',') = some (m, enc) →
      ∃ r, render io req func args kwargs = Except.ok r
        ∧ r.body = enc v ∧ r.mimetype = some m)
    ∧ (findEnc io.encoders (pySplit (getHeader req.headers "accept") ',') = Option.none →
      render io req func args kwargs
        = Except.error (PyError.mediaTypeSupported
            ((pySplit (getHeader req.headers "accept") ',').map (fun m => some m))
            ("Media types not supported: "
              ++ joinWith ", " (pySplit (getHeader req.headers "accept") ',')))) := by
  have hneg : ¬ (¬ pyTruthyStr (getHeader req.headers "accept") = true
      ∨ pyContains (getHeader req.headers "accept") "*/*" = true) := by
    intro hc
    rcases hc with h1 | h1
    · exact h1 hAcc
    · rw [hStar] at h1
      exact Bool.noConfusion h1
  have hmt : encodeMediaTypes io (getHeader req.headers "accept")
      = Except.ok (pySplit (getHeader req.headers "accept") ',') := by
    unfold encodeMediaTypes
    rw [if_neg hneg]
  constructor
  · intro m enc hf
    have henc : io.encode req v = Except.ok (m, enc v) := by
      unfold FlaskIOState.encode
      rw [hmt]
      simp only [Except.bind, hf]
    exact encodeIntoBody_value io req (func args kwargs) v st hs hOut m (enc v) henc
  · intro hf
    have henc : io.encode req v
        = Except.error (PyError.mediaTypeSupported
            ((pySplit (getHeader req.headers "accept") ',').map (fun m => some m))
            ("Media types not supported: "
              ++ joinWith ", " (pySplit (getHeader req.headers "accept") ','))) := by
      unfold FlaskIOState.encode
      rw [hmt]
      simp only [Except.bind, hf]
    exact encodeIntoBody_value_err io req (func args kwargs) v st hs hOut _ henc

/-- Witness for C2: with `Accept: text/xml,text/html;q=0.9`, the html encoder
(the first supported entry, stripped of its parameters) produces the body and
the mimetype is `text/html`. -/
theorem claim_C2_witness :
    (pyTruthyStr (getHeader reqW.headers "accept") = true)
    ∧ (pyContains (getHeader reqW.headers "accept") "*/*" = false)
    ∧ (normalizeOut (HandlerOut.single (RawData.value (Val.int 1)))
      = (RawData.value (Val.int 1), Option.none, []))
    ∧ ∃ r, render ioW reqW (fun _ _ => HandlerOut.single (RawData.value (Val.int 1))) [] []
        = Except.ok r
      ∧ r.body = (fun (_ : Val) => "HTML") (Val.int 1) ∧ r.mimetype = some "text/html" :=
  ⟨rfl, rfl, rfl,
   (claim_C2 ioW reqW (fun _ _ => HandlerOut.single (RawData.value (Val.int 1))) [] []
      (Val.int 1) Option.none [] rfl rfl rfl).1 "text/html" (fun _ => "HTML") rfl⟩

end FlaskIOSpec

namespace FlaskIOSpec

/-- Once the default encoder media type is truthy, later `register_encoder`
calls do not change it. -/
theorem registerEncoderFold_keeps (regs : List (String × Encoder)) :
    ∀ (io : FlaskIOState), pyTruthyOpt io.default_encoder = true →
    (regs.foldl (fun s p => s.register_encoder p.1 p.2) io).default_encoder
      = io.default_encoder := by
  induction regs with
  | nil => intro io _; rfl
  | cons p rest ih =>
    intro io h
    have hstep : (io.register_encoder p.1 p.2).default_encoder = io.default_encoder := by
      unfold FlaskIOState.register_encoder
      rw [if_pos h]
    show (rest.foldl (fun s q => s.register_encoder q.1 q.2)
        (io.register_encoder p.1 p.2)).default_encoder = io.default_encoder
    rw [ih (io.register_encoder p.1 p.2) (by rw [hstep]; exact h), hstep]

/-- Starting from a falsy default, the default encoder media type becomes the
first non-empty registered media type. -/
theorem registerEncoderFold_default (regs : List (String × Encoder)) :
    ∀ (io : FlaskIOState) (m : String), pyTruthyOpt io.default_encoder = false →
    (regs.map (fun p => p.1)).find? (fun x => pyTruthyStr x) = some m →
    (regs.foldl (fun s p => s.register_encoder p.1 p.2) io).default_encoder = some m := by
  induction regs with
  | nil =>
    intro io m _ hm
    exact Option.noConfusion hm
  | cons p rest ih =>
    intro io m h hm
    have hstep : (io.register_encoder p.1 p.2).default_encoder = some p.1 := by
      unfold FlaskIOState.register_encoder
      rw [if_neg]
      rw [h]
      simp
    show (rest.foldl (fun s q => s.register_encoder q.1 q.2)
        (io.register_encoder p.1 p.2)).default_encoder = some m
    by_cases hmt : pyTruthyStr p.1 = true
    · have hm2 : p.1 = m := by
        simp only [List.map, List.find?, hmt] at hm
        injection hm
      rw [registerEncoderFold_keeps rest (io.register_encoder p.1 p.2)
        (by rw [hstep]; exact hmt), hstep, hm2]
    · have hm2 : (rest.map (fun q => q.1)).find? (fun x => pyTruthyStr x) = some m := by
        simp only [List.map, List.find?] at hm
        rw [Bool.eq_false_iff.mpr hmt] at hm
        exact hm
      exact ih (io.register_encoder p.1 p.2) m
        (by rw [hstep]; exact Bool.eq_false_iff.mpr (by rw [hstep] at *; exact hmt)) hm2

/-- Claim C3 (amended): when the `Accept` header is empty or contains
`'*/*'`, a render-decorated handler's plain return value is serialized with
the encoder registered under the default encoder media type (which, holding
no `';'`, is its own `split(';')[0]`), and the default encoder media type is
the one passed to the first `register_encoder` call with a non-empty media
type — registrations after the default has become non-empty do not change
it.  (A first registration with an empty media type sets a default that is
still falsy and is overwritten by the next registration.) -/
theorem claim_C3 :
    (∀ (io : FlaskIOState) (req : Request) (func : List Val → Kwargs → HandlerOut)
        (args : List Val) (kwargs : Kwargs) (v : Val) (st : Option PyStatus)
        (hs : List (String × String)) (d : String) (enc : Encoder),
      (pyTruthyStr (getHeader req.headers "accept") = false
        ∨ pyContains (getHeader req.headers "accept") "*/*" = true) →
      io.default_encoder = some d →
      pyContains d ";" = false →
      listGet io.encoders d = some enc →
      normalizeOut (func args kwargs) = (RawData.value v, st, hs) →
      ∃ r, render io req func args kwargs = Except.ok r
        ∧ r.body = enc v ∧ r.mimetype = some d)
    ∧ (∀ (regs : List (String × Encoder)) (m : String),
      (regs.map (fun p => p.1)).find? (fun x => pyTruthyStr x) = some m →
      (regs.foldl (fun s p => s.register_encoder p.1 p.2)
        FlaskIOState.empty).default_encoder = some m) := by
  constructor
  · intro io req func args kwargs v st hs d enc hAcc hde hd henc2 hOut
    have hpos : ¬ pyTruthyStr (getHeader req.headers "accept") = true
        ∨ pyContains (getHeader req.headers "accept") "*/*" = true := by
      rcases hAcc with h1 | h1
      · exact Or.inl (by rw [h1]; exact Bool.noConfusion)
      · exact Or.inr h1
    have hmt : encodeMediaTypes io (getHeader req.headers "accept") = Except.ok [d] := by
      unfold encodeMediaTypes
      rw [if_pos hpos, hde]
    have hfind : findEnc io.encoders [d] = some (d, enc) := by
      simp only [findEnc, pySplitHead_no_semicolon d hd, henc2]
    have henc : io.encode req v = Except.ok (d, enc v) := by
      unfold FlaskIOState.encode
      rw [hmt]
      simp only [Except.bind, hfind]
    exact encodeIntoBody_value io req (func args kwargs) v st hs hOut d (enc v) henc
  · intro regs m hm
    exact registerEncoderFold_default regs FlaskIOState.empty m rfl hm

/-- Counterexample for C3 as stated: the first `register_encoder` call passes
the empty media type, and the second registration does change the default. -/
theorem claim_C3_counterexample :
    ((FlaskIOState.empty.register_encoder "" (fun _ => "E1")).register_encoder
        "application/json" (fun _ => "E2")).default_encoder = some "application/json"
    ∧ ("application/json" : String) ≠ "" :=
  ⟨rfl, by decide⟩

/-- Witness for C3: with no `Accept` header the JSON default encoder
serializes the value, and the default media type of a concrete registration
sequence is the first non-empty one. -/
theorem claim_C3_witness :
    (∃ r, render ioW { reqW with headers := [] }
        (fun _ _ => HandlerOut.single (RawData.value (Val.int 1))) [] []
      = Except.ok r
      ∧ r.body = (fun (_ : Val) => "JSON") (Val.int 1)
      ∧ r.mimetype = some "application/json")
    ∧ ([("", (fun _ => "E1" : Encoder)), ("application/json", (fun _ => "E2" : Encoder))].foldl
        (fun s p => s.register_encoder p.1 p.2) FlaskIOState.empty).default_encoder
      = some "application/json" :=
  ⟨(claim_C3.1 ioW { reqW with headers := [] }
      (fun _ _ => HandlerOut.single (RawData.value (Val.int 1))) [] [] (Val.int 1)
      Option.none [] "application/json" (fun _ => "JSON") (Or.inl rfl) rfl rfl rfl rfl),
   (claim_C3.2 [("", (fun _ => "E1" : Encoder)), ("application/json", (fun _ => "E2" : Encoder))]
      "application/json" rfl)⟩

end FlaskIOSpec
